import Mathlib

/-!
Shallow embedding of `universal_mcp_semrush/app.py` (class `SemrushApp`).

Python dicts are modelled as insertion-ordered association lists
(`Params`); `params[k] = v` is `dictSet`, which overwrites in place when
the key is present and appends otherwise.  Python `None` for the unset
optional arguments is `Option.none`; the credential `self._api_key` is an
`Option String` and Python string truthiness is `truthyStr`.  Every
`ValueError` raised by the class carries only its message, so errors are
`Err.valueError msg`.  The HTTP transport is external: a report method is
embedded as a function returning the next object state together with
either the error raised before any I/O, or the single GET `Request`
(URL and query parameters) it issues.  The number of calls to the
external credential provider (`integration.get_credentials()`) is recorded
in the `lookups` counter so that at-most-once properties are statable.
-/

namespace Semrush

/-- Wire values a parameter can take: Python strings, ints, and `None`
(the credential slot when the key is still unresolved). -/
inductive PVal where
  | str (s : String)
  | int (n : Int)
  | null
deriving DecidableEq, Repr

/-- Insertion-ordered mapping, the model of a Python dict. -/
abbrev Params := List (String × PVal)

/-- Membership of a key, the model of `k in params`. -/
def hasKey : Params → String → Bool
  | [], _ => false
  | p :: ps, k => p.1 == k || hasKey ps k

/-- Python dict assignment `params[k] = v`: overwrite in place if the key
is present, append at the end otherwise. -/
def dictSet : Params → String → PVal → Params
  | [], k, v => [(k, v)]
  | p :: ps, k, v => if p.1 == k then (k, v) :: ps else p :: dictSet ps k v

/-- Model of `if x is not None: params[k] = x` for one optional argument. -/
def addIfSome (ps : Params) (k : String) : Option PVal → Params
  | none => ps
  | some v => dictSet ps k v

/-- Sequence of `if x is not None: params[k] = x` statements, in source
order. -/
def addOpts (ps : Params) : List (String × Option PVal) → Params
  | [] => ps
  | (k, o) :: rest => addOpts (addIfSome ps k o) rest

/-- Serialization of an optional string argument. -/
def optStr (o : Option String) : Option PVal := o.map PVal.str

/-- Serialization of an optional int argument. -/
def optInt (o : Option Int) : Option PVal := o.map PVal.int

/-- Value placed under the `key` wire key: the resolved credential, or
Python `None` when it is still unresolved. -/
def PVal.ofKey : Option String → PVal
  | some s => .str s
  | none => .null

/-- Every error the class raises is a `ValueError` carrying a message
(missing-argument validation failures and the missing-integration case). -/
inductive Err where
  | valueError (msg : String)
deriving DecidableEq, Repr

/-- Python string truthiness of the cached credential slot:
`None` and `""` are falsy. -/
def truthyStr : Option String → Bool
  | none => false
  | some s => decide (s ≠ "")

/-- Lookup of a field in the credential mapping returned by the provider
(`credentials["api_key"]` guarded by `"api_key" in credentials`). -/
def lookupCred : List (String × String) → String → Option String
  | [], _ => none
  | p :: ps, k => if p.1 == k then some p.2 else lookupCred ps k

/-- Mutable state of a `SemrushApp` object: the configured integration
(modelled by the credential mapping its `get_credentials()` returns, or
`none` when no integration is set), the cached `_api_key`, and an
instrumentation counter of provider lookups. -/
structure SemrushApp where
  integration : Option (List (String × String))
  _api_key : Option String
  lookups : Nat := 0
deriving DecidableEq, Repr

/-- `self.base_url`, assigned once in `__init__`. -/
def base_url : String := "https://api.semrush.com"

/-- `_get_headers`: raises `ValueError("Integration not found")` when no
integration is configured; otherwise calls the provider once, caches the
`api_key` field when present, and always returns empty headers. -/
def _get_headers (app : SemrushApp) :
    SemrushApp × Except Err (List (String × String)) :=
  match app.integration with
  | none => (app, .error (.valueError "Integration not found"))
  | some credentials =>
    let app := { app with lookups := app.lookups + 1 }
    match lookupCred credentials "api_key" with
    | some v => ({ app with _api_key := some v }, .ok [])
    | none => (app, .ok [])

/-- The `api_key` property getter: returns the cached value when truthy,
otherwise runs `_get_headers` and returns whatever `_api_key` then holds
(possibly still `None`). -/
def api_key (app : SemrushApp) : SemrushApp × Except Err (Option String) :=
  if truthyStr app._api_key then (app, .ok app._api_key)
  else
    match _get_headers app with
    | (app', .error e) => (app', .error e)
    | (app', .ok _) => (app', .ok app'._api_key)

/-- One HTTP GET as issued by `self._get(url, params=params)`: the model
stops at the request boundary since the transport is an external
collaborator. -/
structure Request where
  url : String
  params : Params
deriving DecidableEq, Repr

/-- Common tail of every report method: read the `api_key` property
(which may raise), then build the parameter dict containing it and issue
the GET.  Returns the request instead of performing I/O. -/
def requestWithKey (app : SemrushApp) (build : Option String → Request) :
    SemrushApp × Except Err Request :=
  match api_key app with
  | (app', .error e) => (app', .error e)
  | (app', .ok key) => (app', .ok (build key))

/-- Report method `domain_ad_history`. -/
def domain_ad_history (app : SemrushApp) (domain : String)
    (database : String := "us")
    (display_limit : Option Int := none) (display_offset : Option Int := none)
    (display_date : Option String := none) (export_columns : Option String := none)
    (display_sort : Option String := none) (display_filter : Option String := none)
    (export_escape : Option Int := none) (export_decode : Option Int := none) :
    SemrushApp × Except Err Request :=
  if domain = "" then (app, .error (.valueError "Domain parameter is required")) else
  requestWithKey app (fun key =>
    { url := base_url
      params := addOpts
        [("type", .str "domain_ad_history"), ("key", .ofKey key),
         ("domain", .str domain), ("database", .str database)]
        [("display_limit", optInt display_limit), ("display_offset", optInt display_offset),
         ("display_date", optStr display_date), ("export_columns", optStr export_columns),
         ("display_sort", optStr display_sort), ("display_filter", optStr display_filter),
         ("export_escape", optInt export_escape), ("export_decode", optInt export_decode)] })

/-- Report method `domain_organic_pages`. -/
def domain_organic_pages (app : SemrushApp) (domain : String)
    (database : String := "us")
    (display_limit : Option Int := none) (display_offset : Option Int := none)
    (display_date : Option String := none) (export_columns : Option String := none)
    (display_sort : Option String := none) (display_filter : Option String := none)
    (export_escape : Option Int := none) (export_decode : Option Int := none) :
    SemrushApp × Except Err Request :=
  if domain = "" then (app, .error (.valueError "Domain parameter is required")) else
  requestWithKey app (fun key =>
    { url := base_url
      params := addOpts
        [("type", .str "domain_organic_unique"), ("key", .ofKey key),
         ("domain", .str domain), ("database", .str database)]
        [("display_limit", optInt display_limit), ("display_offset", optInt display_offset),
         ("display_date", optStr display_date), ("export_columns", optStr export_columns),
         ("display_sort", optStr display_sort), ("display_filter", optStr display_filter),
         ("export_escape", optInt export_escape), ("export_decode", optInt export_decode)] })

/-- Report method `domain_organic_search_keywords`. -/
def domain_organic_search_keywords (app : SemrushApp) (domain : String)
    (database : String := "us")
    (display_limit : Option Int := none) (display_offset : Option Int := none)
    (display_date : Option String := none) (display_daily : Option Int := none)
    (export_columns : Option String := none) (display_sort : Option String := none)
    (display_positions : Option String := none)
    (display_positions_type : Option String := none)
    (display_filter : Option String := none) (export_escape : Option Int := none) :
    SemrushApp × Except Err Request :=
  if domain = "" then (app, .error (.valueError "Domain parameter is required")) else
  requestWithKey app (fun key =>
    { url := base_url
      params := addOpts
        [("type", .str "domain_organic"), ("key", .ofKey key),
         ("domain", .str domain), ("database", .str database)]
        [("display_limit", optInt display_limit), ("display_offset", optInt display_offset),
         ("display_date", optStr display_date), ("display_daily", optInt display_daily),
         ("export_columns", optStr export_columns), ("display_sort", optStr display_sort),
         ("display_positions", optStr display_positions),
         ("display_positions_type", optStr display_positions_type),
         ("display_filter", optStr display_filter), ("export_escape", optInt export_escape)] })

/-- Report method `domain_organic_subdomains`. -/
def domain_organic_subdomains (app : SemrushApp) (domain : String)
    (database : String := "us")
    (display_limit : Option Int := none) (display_offset : Option Int := none)
    (display_date : Option String := none) (export_columns : Option String := none)
    (display_sort : Option String := none)
    (export_escape : Option Int := none) (export_decode : Option Int := none) :
    SemrushApp × Except Err Request :=
  if domain = "" then (app, .error (.valueError "Domain parameter is required")) else
  requestWithKey app (fun key =>
    { url := base_url
      params := addOpts
        [("type", .str "domain_organic_subdomains"), ("key", .ofKey key),
         ("domain", .str domain), ("database", .str database)]
        [("display_limit", optInt display_limit), ("display_offset", optInt display_offset),
         ("display_date", optStr display_date), ("export_columns", optStr export_columns),
         ("display_sort", optStr display_sort),
         ("export_escape", optInt export_escape), ("export_decode", optInt export_decode)] })

/-- Report method `domain_paid_search_keywords`. -/
def domain_paid_search_keywords (app : SemrushApp) (domain : String)
    (database : String := "us")
    (display_limit : Option Int := none) (display_offset : Option Int := none)
    (display_date : Option String := none) (export_columns : Option String := none)
    (display_sort : Option String := none) (display_positions : Option String := none)
    (display_filter : Option String := none)
    (export_escape : Option Int := none) (export_decode : Option Int := none) :
    SemrushApp × Except Err Request :=
  if domain = "" then (app, .error (.valueError "Domain parameter is required")) else
  requestWithKey app (fun key =>
    { url := base_url
      params := addOpts
        [("type", .str "domain_adwords"), ("key", .ofKey key),
         ("domain", .str domain), ("database", .str database)]
        [("display_limit", optInt display_limit), ("display_offset", optInt display_offset),
         ("display_date", optStr display_date), ("export_columns", optStr export_columns),
         ("display_sort", optStr display_sort),
         ("display_positions", optStr display_positions),
         ("display_filter", optStr display_filter),
         ("export_escape", optInt export_escape), ("export_decode", optInt export_decode)] })

/-- Report method `domain_pla_search_keywords`. -/
def domain_pla_search_keywords (app : SemrushApp) (domain : String)
    (database : String := "us")
    (display_limit : Option Int := none) (display_offset : Option Int := none)
    (export_columns : Option String := none) (display_sort : Option String := none)
    (display_filter : Option String := none)
    (export_escape : Option Int := none) (export_decode : Option Int := none) :
    SemrushApp × Except Err Request :=
  if domain = "" then (app, .error (.valueError "Domain parameter is required")) else
  requestWithKey app (fun key =>
    { url := base_url
      params := addOpts
        [("type", .str "domain_shopping"), ("key", .ofKey key),
         ("domain", .str domain), ("database", .str database)]
        [("display_limit", optInt display_limit), ("display_offset", optInt display_offset),
         ("export_columns", optStr export_columns), ("display_sort", optStr display_sort),
         ("display_filter", optStr display_filter),
         ("export_escape", optInt export_escape), ("export_decode", optInt export_decode)] })

/-- Report method `domain_vs_domain`. -/
def domain_vs_domain (app : SemrushApp) (domains : String)
    (database : String := "us")
    (display_limit : Option Int := none) (display_offset : Option Int := none)
    (display_date : Option String := none) (export_columns : Option String := none)
    (display_sort : Option String := none) (display_filter : Option String := none)
    (export_escape : Option Int := none) (export_decode : Option Int := none) :
    SemrushApp × Except Err Request :=
  if domains = "" then (app, .error (.valueError "Domains parameter is required")) else
  requestWithKey app (fun key =>
    { url := base_url
      params := addOpts
        [("type", .str "domain_domains"), ("key", .ofKey key),
         ("domains", .str domains), ("database", .str database)]
        [("display_limit", optInt display_limit), ("display_offset", optInt display_offset),
         ("display_date", optStr display_date), ("export_columns", optStr export_columns),
         ("display_sort", optStr display_sort), ("display_filter", optStr display_filter),
         ("export_escape", optInt export_escape), ("export_decode", optInt export_decode)] })

/-- Report method `backlinks`; routed to the `/analytics/v1` endpoint. -/
def backlinks (app : SemrushApp) (target : String) (target_type : String)
    (export_columns : Option String := none) (display_sort : Option String := none)
    (display_limit : Option Int := none) (display_offset : Option Int := none)
    (display_filter : Option String := none) :
    SemrushApp × Except Err Request :=
  if target = "" then (app, .error (.valueError "Target parameter is required")) else
  if target_type = "" then (app, .error (.valueError "Target_type parameter is required")) else
  requestWithKey app (fun key =>
    { url := base_url ++ "/analytics/v1"
      params := addOpts
        [("type", .str "backlinks"), ("key", .ofKey key),
         ("target", .str target), ("target_type", .str target_type)]
        [("export_columns", optStr export_columns), ("display_sort", optStr display_sort),
         ("display_limit", optInt display_limit), ("display_offset", optInt display_offset),
         ("display_filter", optStr display_filter)] })

/-- Report method `backlinks_overview`; routed to the `/analytics/v1` endpoint. -/
def backlinks_overview (app : SemrushApp) (target : String) (target_type : String)
    (export_columns : Option String := none) (display_sort : Option String := none)
    (display_limit : Option Int := none) (display_offset : Option Int := none)
    (display_filter : Option String := none) :
    SemrushApp × Except Err Request :=
  if target = "" then (app, .error (.valueError "Target parameter is required")) else
  if target_type = "" then (app, .error (.valueError "Target_type parameter is required")) else
  requestWithKey app (fun key =>
    { url := base_url ++ "/analytics/v1"
      params := addOpts
        [("type", .str "backlinks_overview"), ("key", .ofKey key),
         ("target", .str target), ("target_type", .str target_type)]
        [("export_columns", optStr export_columns), ("display_sort", optStr display_sort),
         ("display_limit", optInt display_limit), ("display_offset", optInt display_offset),
         ("display_filter", optStr display_filter)] })

/-- Report method `keyword_difficulty`. -/
def keyword_difficulty (app : SemrushApp) (phrase : String)
    (database : String := "us")
    (export_columns : Option String := none) (export_escape : Option Int := none) :
    SemrushApp × Except Err Request :=
  if phrase = "" then (app, .error (.valueError "Phrase parameter is required")) else
  requestWithKey app (fun key =>
    { url := base_url
      params := addOpts
        [("type", .str "phrase_kdi"), ("key", .ofKey key),
         ("phrase", .str phrase), ("database", .str database)]
        [("export_columns", optStr export_columns), ("export_escape", optInt export_escape)] })

/-- Report method `ads_copies`. -/
def ads_copies (app : SemrushApp) (domain : String)
    (database : String := "us")
    (display_limit : Option Int := none) (display_offset : Option Int := none)
    (export_columns : Option String := none) (display_sort : Option String := none)
    (display_filter : Option String := none)
    (export_escape : Option Int := none) (export_decode : Option Int := none) :
    SemrushApp × Except Err Request :=
  if domain = "" then (app, .error (.valueError "Domain parameter is required")) else
  requestWithKey app (fun key =>
    { url := base_url
      params := addOpts
        [("type", .str "domain_adwords_unique"), ("key", .ofKey key),
         ("domain", .str domain), ("database", .str database)]
        [("display_limit", optInt display_limit), ("display_offset", optInt display_offset),
         ("export_columns", optStr export_columns), ("display_sort", optStr display_sort),
         ("display_filter", optStr display_filter),
         ("export_escape", optInt export_escape), ("export_decode", optInt export_decode)] })

/-- Report method `anchors`; routed to the `/analytics/v1` endpoint. -/
def anchors (app : SemrushApp) (target : String) (target_type : String)
    (export_columns : Option String := none) (display_sort : Option String := none)
    (display_limit : Option Int := none) (display_offset : Option Int := none) :
    SemrushApp × Except Err Request :=
  if target = "" then (app, .error (.valueError "Target parameter is required")) else
  if target_type = "" then (app, .error (.valueError "Target_type parameter is required")) else
  requestWithKey app (fun key =>
    { url := base_url ++ "/analytics/v1"
      params := addOpts
        [("type", .str "backlinks_anchors"), ("key", .ofKey key),
         ("target", .str target), ("target_type", .str target_type)]
        [("export_columns", optStr export_columns), ("display_sort", optStr display_sort),
         ("display_limit", optInt display_limit), ("display_offset", optInt display_offset)] })

/-- Report method `authority_score_profile`; routed to the `/analytics/v1`
endpoint; it has no optional arguments. -/
def authority_score_profile (app : SemrushApp) (target : String) (target_type : String) :
    SemrushApp × Except Err Request :=
  if target = "" then (app, .error (.valueError "Target parameter is required")) else
  if target_type = "" then (app, .error (.valueError "Target_type parameter is required")) else
  requestWithKey app (fun key =>
    { url := base_url ++ "/analytics/v1"
      params :=
        [("type", .str "backlinks_ascore_profile"), ("key", .ofKey key),
         ("target", .str target), ("target_type", .str target_type)] })

/-- Report method `batch_comparison`; routed to the `/analytics/v1`
endpoint.  The two `for` loops assign the elements of `targets` and
`target_types` one after another under the fixed dict keys `targets[]`
and `target_types[]`, exactly as the source does. -/
def batch_comparison (app : SemrushApp) (targets : List String)
    (target_types : List String) (export_columns : Option String := none) :
    SemrushApp × Except Err Request :=
  if targets = [] then (app, .error (.valueError "Targets parameter is required")) else
  if target_types = [] then (app, .error (.valueError "Target_types parameter is required")) else
  if targets.length > 200 then (app, .error (.valueError "Maximum 200 targets allowed")) else
  if targets.length ≠ target_types.length then
    (app, .error (.valueError "Targets and target_types arrays must have the same length")) else
  requestWithKey app (fun key =>
    { url := base_url ++ "/analytics/v1"
      params := addOpts
        (target_types.foldl (fun ps t => dictSet ps "target_types[]" (.str t))
          (targets.foldl (fun ps t => dictSet ps "targets[]" (.str t))
            [("type", .str "backlinks_comparison"), ("key", .ofKey key)]))
        [("export_columns", optStr export_columns)] })

/-- Report method `batch_keyword_overview`. -/
def batch_keyword_overview (app : SemrushApp) (phrase : String)
    (database : String := "us")
    (export_escape : Option Int := none) (export_decode : Option Int := none)
    (display_date : Option String := none) (export_columns : Option String := none) :
    SemrushApp × Except Err Request :=
  if phrase = "" then (app, .error (.valueError "Phrase parameter is required")) else
  requestWithKey app (fun key =>
    { url := base_url
      params := addOpts
        [("type", .str "phrase_these"), ("key", .ofKey key),
         ("phrase", .str phrase), ("database", .str database)]
        [("export_escape", optInt export_escape), ("export_decode", optInt export_decode),
         ("display_date", optStr display_date), ("export_columns", optStr export_columns)] })

/-- Report method `broad_match_keyword`. -/
def broad_match_keyword (app : SemrushApp) (phrase : String)
    (database : String := "us")
    (display_limit : Option Int := none) (display_offset : Option Int := none)
    (export_escape : Option Int := none) (export_decode : Option Int := none)
    (export_columns : Option String := none) (display_sort : Option String := none)
    (display_filter : Option String := none) :
    SemrushApp × Except Err Request :=
  if phrase = "" then (app, .error (.valueError "Phrase parameter is required")) else
  requestWithKey app (fun key =>
    { url := base_url
      params := addOpts
        [("type", .str "phrase_fullsearch"), ("key", .ofKey key),
         ("phrase", .str phrase), ("database", .str database)]
        [("display_limit", optInt display_limit), ("display_offset", optInt display_offset),
         ("export_escape", optInt export_escape), ("export_decode", optInt export_decode),
         ("export_columns", optStr export_columns), ("display_sort", optStr display_sort),
         ("display_filter", optStr display_filter)] })

/-- Report method `categories`; routed to the `/analytics/v1` endpoint. -/
def categories (app : SemrushApp) (target : String) (target_type : String)
    (export_columns : Option String := none) :
    SemrushApp × Except Err Request :=
  if target = "" then (app, .error (.valueError "Target parameter is required")) else
  if target_type = "" then (app, .error (.valueError "Target_type parameter is required")) else
  requestWithKey app (fun key =>
    { url := base_url ++ "/analytics/v1"
      params := addOpts
        [("type", .str "backlinks_categories"), ("key", .ofKey key),
         ("target", .str target), ("target_type", .str target_type)]
        [("export_columns", optStr export_columns)] })

/-- Report method `categories_profile`; routed to the `/analytics/v1` endpoint. -/
def categories_profile (app : SemrushApp) (target : String) (target_type : String)
    (export_columns : Option String := none)
    (display_limit : Option Int := none) (display_offset : Option Int := none) :
    SemrushApp × Except Err Request :=
  if target = "" then (app, .error (.valueError "Target parameter is required")) else
  if target_type = "" then (app, .error (.valueError "Target_type parameter is required")) else
  requestWithKey app (fun key =>
    { url := base_url ++ "/analytics/v1"
      params := addOpts
        [("type", .str "backlinks_categories_profile"), ("key", .ofKey key),
         ("target", .str target), ("target_type", .str target_type)]
        [("export_columns", optStr export_columns),
         ("display_limit", optInt display_limit), ("display_offset", optInt display_offset)] })

/-- Report method `competitors`; routed to the `/analytics/v1` endpoint. -/
def competitors (app : SemrushApp) (target : String) (target_type : String)
    (export_columns : Option String := none)
    (display_limit : Option Int := none) (display_offset : Option Int := none) :
    SemrushApp × Except Err Request :=
  if target = "" then (app, .error (.valueError "Target parameter is required")) else
  if target_type = "" then (app, .error (.valueError "Target_type parameter is required")) else
  requestWithKey app (fun key =>
    { url := base_url ++ "/analytics/v1"
      params := addOpts
        [("type", .str "backlinks_competitors"), ("key", .ofKey key),
         ("target", .str target), ("target_type", .str target_type)]
        [("export_columns", optStr export_columns),
         ("display_limit", optInt display_limit), ("display_offset", optInt display_offset)] })

/-- Report method `competitors_organic_search`. -/
def competitors_organic_search (app : SemrushApp) (domain : String)
    (database : String := "us")
    (display_limit : Option Int := none) (display_offset : Option Int := none)
    (export_escape : Option Int := none) (export_decode : Option Int := none)
    (display_date : Option String := none) (export_columns : Option String := none)
    (display_sort : Option String := none) :
    SemrushApp × Except Err Request :=
  if domain = "" then (app, .error (.valueError "Domain parameter is required")) else
  requestWithKey app (fun key =>
    { url := base_url
      params := addOpts
        [("type", .str "domain_organic_organic"), ("key", .ofKey key),
         ("domain", .str domain), ("database", .str database)]
        [("display_limit", optInt display_limit), ("display_offset", optInt display_offset),
         ("export_escape", optInt export_escape), ("export_decode", optInt export_decode),
         ("display_date", optStr display_date), ("export_columns", optStr export_columns),
         ("display_sort", optStr display_sort)] })

/-- Report method `competitors_paid_search`. -/
def competitors_paid_search (app : SemrushApp) (domain : String)
    (database : String := "us")
    (display_limit : Option Int := none) (display_offset : Option Int := none)
    (export_escape : Option Int := none) (export_decode : Option Int := none)
    (display_date : Option String := none) (export_columns : Option String := none)
    (display_sort : Option String := none) :
    SemrushApp × Except Err Request :=
  if domain = "" then (app, .error (.valueError "Domain parameter is required")) else
  requestWithKey app (fun key =>
    { url := base_url
      params := addOpts
        [("type", .str "domain_adwords_adwords"), ("key", .ofKey key),
         ("domain", .str domain), ("database", .str database)]
        [("display_limit", optInt display_limit), ("display_offset", optInt display_offset),
         ("export_escape", optInt export_escape), ("export_decode", optInt export_decode),
         ("display_date", optStr display_date), ("export_columns", optStr export_columns),
         ("display_sort", optStr display_sort)] })

/-- Report method `indexed_pages`; routed to the `/analytics/v1` endpoint. -/
def indexed_pages (app : SemrushApp) (target : String) (target_type : String)
    (export_columns : Option String := none) (display_sort : Option String := none)
    (display_limit : Option Int := none) (display_offset : Option Int := none) :
    SemrushApp × Except Err Request :=
  if target = "" then (app, .error (.valueError "Target parameter is required")) else
  if target_type = "" then (app, .error (.valueError "Target_type parameter is required")) else
  requestWithKey app (fun key =>
    { url := base_url ++ "/analytics/v1"
      params := addOpts
        [("type", .str "backlinks_pages"), ("key", .ofKey key),
         ("target", .str target), ("target_type", .str target_type)]
        [("export_columns", optStr export_columns), ("display_sort", optStr display_sort),
         ("display_limit", optInt display_limit), ("display_offset", optInt display_offset)] })

/-- Report method `keyword_ads_history`. -/
def keyword_ads_history (app : SemrushApp) (phrase : String)
    (database : String := "us")
    (display_limit : Option Int := none) (display_offset : Option Int := none)
    (export_escape : Option Int := none) (export_decode : Option Int := none)
    (export_columns : Option String := none) :
    SemrushApp × Except Err Request :=
  if phrase = "" then (app, .error (.valueError "Phrase parameter is required")) else
  requestWithKey app (fun key =>
    { url := base_url
      params := addOpts
        [("type", .str "phrase_adwords_historical"), ("key", .ofKey key),
         ("phrase", .str phrase), ("database", .str database)]
        [("display_limit", optInt display_limit), ("display_offset", optInt display_offset),
         ("export_escape", optInt export_escape), ("export_decode", optInt export_decode),
         ("export_columns", optStr export_columns)] })

/-- Report method `keyword_overview_all_databases`; here `database` is an
optional argument, added only when supplied. -/
def keyword_overview_all_databases (app : SemrushApp) (phrase : String)
    (database : Option String := none)
    (export_escape : Option Int := none) (export_decode : Option Int := none)
    (export_columns : Option String := none) :
    SemrushApp × Except Err Request :=
  if phrase = "" then (app, .error (.valueError "Phrase parameter is required")) else
  requestWithKey app (fun key =>
    { url := base_url
      params := addOpts
        [("type", .str "phrase_all"), ("key", .ofKey key), ("phrase", .str phrase)]
        [("database", optStr database),
         ("export_escape", optInt export_escape), ("export_decode", optInt export_decode),
         ("export_columns", optStr export_columns)] })

/-- Report method `keyword_overview_one_database`. -/
def keyword_overview_one_database (app : SemrushApp) (phrase : String)
    (database : String := "us")
    (export_escape : Option Int := none) (export_decode : Option Int := none)
    (display_date : Option String := none) (export_columns : Option String := none) :
    SemrushApp × Except Err Request :=
  if phrase = "" then (app, .error (.valueError "Phrase parameter is required")) else
  requestWithKey app (fun key =>
    { url := base_url
      params := addOpts
        [("type", .str "phrase_this"), ("key", .ofKey key),
         ("phrase", .str phrase), ("database", .str database)]
        [("export_escape", optInt export_escape), ("export_decode", optInt export_decode),
         ("display_date", optStr display_date), ("export_columns", optStr export_columns)] })

/-- Report method `organic_results`. -/
def organic_results (app : SemrushApp) (phrase : String)
    (database : String := "us")
    (display_limit : Option Int := none) (display_offset : Option Int := none)
    (export_escape : Option Int := none) (export_decode : Option Int := none)
    (display_date : Option String := none) (export_columns : Option String := none)
    (positions_type : Option String := none) :
    SemrushApp × Except Err Request :=
  if phrase = "" then (app, .error (.valueError "Phrase parameter is required")) else
  requestWithKey app (fun key =>
    { url := base_url
      params := addOpts
        [("type", .str "phrase_organic"), ("key", .ofKey key),
         ("phrase", .str phrase), ("database", .str database)]
        [("display_limit", optInt display_limit), ("display_offset", optInt display_offset),
         ("export_escape", optInt export_escape), ("export_decode", optInt export_decode),
         ("display_date", optStr display_date), ("export_columns", optStr export_columns),
         ("positions_type", optStr positions_type)] })

/-- Report method `paid_results`. -/
def paid_results (app : SemrushApp) (phrase : String)
    (database : String := "us")
    (display_limit : Option Int := none) (display_offset : Option Int := none)
    (export_escape : Option Int := none) (export_decode : Option Int := none)
    (display_date : Option String := none) (export_columns : Option String := none) :
    SemrushApp × Except Err Request :=
  if phrase = "" then (app, .error (.valueError "Phrase parameter is required")) else
  requestWithKey app (fun key =>
    { url := base_url
      params := addOpts
        [("type", .str "phrase_adwords"), ("key", .ofKey key),
         ("phrase", .str phrase), ("database", .str database)]
        [("display_limit", optInt display_limit), ("display_offset", optInt display_offset),
         ("export_escape", optInt export_escape), ("export_decode", optInt export_decode),
         ("display_date", optStr display_date), ("export_columns", optStr export_columns)] })

/-- Report method `phrase_questions`. -/
def phrase_questions (app : SemrushApp) (phrase : String)
    (database : String := "us")
    (display_limit : Option Int := none) (display_offset : Option Int := none)
    (export_escape : Option Int := none) (export_decode : Option Int := none)
    (export_columns : Option String := none) (display_sort : Option String := none)
    (display_filter : Option String := none) :
    SemrushApp × Except Err Request :=
  if phrase = "" then (app, .error (.valueError "Phrase parameter is required")) else
  requestWithKey app (fun key =>
    { url := base_url
      params := addOpts
        [("type", .str "phrase_questions"), ("key", .ofKey key),
         ("phrase", .str phrase), ("database", .str database)]
        [("display_limit", optInt display_limit), ("display_offset", optInt display_offset),
         ("export_escape", optInt export_escape), ("export_decode", optInt export_decode),
         ("export_columns", optStr export_columns), ("display_sort", optStr display_sort),
         ("display_filter", optStr display_filter)] })

/-- Report method `pla_competitors`. -/
def pla_competitors (app : SemrushApp) (domain : String)
    (database : String := "us")
    (display_limit : Option Int := none) (display_offset : Option Int := none)
    (export_escape : Option Int := none) (export_decode : Option Int := none)
    (export_columns : Option String := none) (display_sort : Option String := none) :
    SemrushApp × Except Err Request :=
  if domain = "" then (app, .error (.valueError "Domain parameter is required")) else
  requestWithKey app (fun key =>
    { url := base_url
      params := addOpts
        [("type", .str "domain_shopping_shopping"), ("key", .ofKey key),
         ("domain", .str domain), ("database", .str database)]
        [("display_limit", optInt display_limit), ("display_offset", optInt display_offset),
         ("export_escape", optInt export_escape), ("export_decode", optInt export_decode),
         ("export_columns", optStr export_columns), ("display_sort", optStr display_sort)] })

/-- Report method `pla_copies`. -/
def pla_copies (app : SemrushApp) (domain : String)
    (database : String := "us")
    (display_limit : Option Int := none) (display_offset : Option Int := none)
    (export_escape : Option Int := none) (export_decode : Option Int := none)
    (export_columns : Option String := none) (display_sort : Option String := none)
    (display_filter : Option String := none) :
    SemrushApp × Except Err Request :=
  if domain = "" then (app, .error (.valueError "Domain parameter is required")) else
  requestWithKey app (fun key =>
    { url := base_url
      params := addOpts
        [("type", .str "domain_shopping_unique"), ("key", .ofKey key),
         ("domain", .str domain), ("database", .str database)]
        [("display_limit", optInt display_limit), ("display_offset", optInt display_offset),
         ("export_escape", optInt export_escape), ("export_decode", optInt export_decode),
         ("export_columns", optStr export_columns), ("display_sort", optStr display_sort),
         ("display_filter", optStr display_filter)] })

/-- Report method `referring_domains`; routed to the `/analytics/v1` endpoint. -/
def referring_domains (app : SemrushApp) (target : String) (target_type : String)
    (export_columns : Option String := none) (display_sort : Option String := none)
    (display_limit : Option Int := none) (display_offset : Option Int := none)
    (display_filter : Option String := none) :
    SemrushApp × Except Err Request :=
  if target = "" then (app, .error (.valueError "Target parameter is required")) else
  if target_type = "" then (app, .error (.valueError "Target_type parameter is required")) else
  requestWithKey app (fun key =>
    { url := base_url ++ "/analytics/v1"
      params := addOpts
        [("type", .str "backlinks_refdomains"), ("key", .ofKey key),
         ("target", .str target), ("target_type", .str target_type)]
        [("export_columns", optStr export_columns), ("display_sort", optStr display_sort),
         ("display_limit", optInt display_limit), ("display_offset", optInt display_offset),
         ("display_filter", optStr display_filter)] })

/-- Report method `referring_domains_by_country`; routed to the
`/analytics/v1` endpoint. -/
def referring_domains_by_country (app : SemrushApp) (target : String) (target_type : String)
    (export_columns : Option String := none) (display_sort : Option String := none)
    (display_limit : Option Int := none) (display_offset : Option Int := none) :
    SemrushApp × Except Err Request :=
  if target = "" then (app, .error (.valueError "Target parameter is required")) else
  if target_type = "" then (app, .error (.valueError "Target_type parameter is required")) else
  requestWithKey app (fun key =>
    { url := base_url ++ "/analytics/v1"
      params := addOpts
        [("type", .str "backlinks_geo"), ("key", .ofKey key),
         ("target", .str target), ("target_type", .str target_type)]
        [("export_columns", optStr export_columns), ("display_sort", optStr display_sort),
         ("display_limit", optInt display_limit), ("display_offset", optInt display_offset)] })

/-- Report method `related_keywords`. -/
def related_keywords (app : SemrushApp) (phrase : String)
    (database : String := "us")
    (display_limit : Option Int := none) (display_offset : Option Int := none)
    (export_escape : Option Int := none) (export_decode : Option Int := none)
    (export_columns : Option String := none) (display_sort : Option String := none)
    (display_filter : Option String := none) :
    SemrushApp × Except Err Request :=
  if phrase = "" then (app, .error (.valueError "Phrase parameter is required")) else
  requestWithKey app (fun key =>
    { url := base_url
      params := addOpts
        [("type", .str "phrase_related"), ("key", .ofKey key),
         ("phrase", .str phrase), ("database", .str database)]
        [("display_limit", optInt display_limit), ("display_offset", optInt display_offset),
         ("export_escape", optInt export_escape), ("export_decode", optInt export_decode),
         ("export_columns", optStr export_columns), ("display_sort", optStr display_sort),
         ("display_filter", optStr display_filter)] })

/-- One report invocation with its full argument list; one constructor
per report method of the class. -/
inductive Call where
  | domain_ad_history (domain database : String)
      (display_limit display_offset : Option Int)
      (display_date export_columns display_sort display_filter : Option String)
      (export_escape export_decode : Option Int)
  | domain_organic_pages (domain database : String)
      (display_limit display_offset : Option Int)
      (display_date export_columns display_sort display_filter : Option String)
      (export_escape export_decode : Option Int)
  | domain_organic_search_keywords (domain database : String)
      (display_limit display_offset : Option Int)
      (display_date : Option String) (display_daily : Option Int)
      (export_columns display_sort display_positions
        display_positions_type display_filter : Option String)
      (export_escape : Option Int)
  | domain_organic_subdomains (domain database : String)
      (display_limit display_offset : Option Int)
      (display_date export_columns display_sort : Option String)
      (export_escape export_decode : Option Int)
  | domain_paid_search_keywords (domain database : String)
      (display_limit display_offset : Option Int)
      (display_date export_columns display_sort
        display_positions display_filter : Option String)
      (export_escape export_decode : Option Int)
  | domain_pla_search_keywords (domain database : String)
      (display_limit display_offset : Option Int)
      (export_columns display_sort display_filter : Option String)
      (export_escape export_decode : Option Int)
  | domain_vs_domain (domains database : String)
      (display_limit display_offset : Option Int)
      (display_date export_columns display_sort display_filter : Option String)
      (export_escape export_decode : Option Int)
  | backlinks (target target_type : String)
      (export_columns display_sort : Option String)
      (display_limit display_offset : Option Int) (display_filter : Option String)
  | backlinks_overview (target target_type : String)
      (export_columns display_sort : Option String)
      (display_limit display_offset : Option Int) (display_filter : Option String)
  | keyword_difficulty (phrase database : String)
      (export_columns : Option String) (export_escape : Option Int)
  | ads_copies (domain database : String)
      (display_limit display_offset : Option Int)
      (export_columns display_sort display_filter : Option String)
      (export_escape export_decode : Option Int)
  | anchors (target target_type : String)
      (export_columns display_sort : Option String)
      (display_limit display_offset : Option Int)
  | authority_score_profile (target target_type : String)
  | batch_comparison (targets target_types : List String)
      (export_columns : Option String)
  | batch_keyword_overview (phrase database : String)
      (export_escape export_decode : Option Int)
      (display_date export_columns : Option String)
  | broad_match_keyword (phrase database : String)
      (display_limit display_offset : Option Int)
      (export_escape export_decode : Option Int)
      (export_columns display_sort display_filter : Option String)
  | categories (target target_type : String) (export_columns : Option String)
  | categories_profile (target target_type : String)
      (export_columns : Option String)
      (display_limit display_offset : Option Int)
  | competitors (target target_type : String)
      (export_columns : Option String)
      (display_limit display_offset : Option Int)
  | competitors_organic_search (domain database : String)
      (display_limit display_offset : Option Int)
      (export_escape export_decode : Option Int)
      (display_date export_columns display_sort : Option String)
  | competitors_paid_search (domain database : String)
      (display_limit display_offset : Option Int)
      (export_escape export_decode : Option Int)
      (display_date export_columns display_sort : Option String)
  | indexed_pages (target target_type : String)
      (export_columns display_sort : Option String)
      (display_limit display_offset : Option Int)
  | keyword_ads_history (phrase database : String)
      (display_limit display_offset : Option Int)
      (export_escape export_decode : Option Int) (export_columns : Option String)
  | keyword_overview_all_databases (phrase : String) (database : Option String)
      (export_escape export_decode : Option Int) (export_columns : Option String)
  | keyword_overview_one_database (phrase database : String)
      (export_escape export_decode : Option Int)
      (display_date export_columns : Option String)
  | organic_results (phrase database : String)
      (display_limit display_offset : Option Int)
      (export_escape export_decode : Option Int)
      (display_date export_columns positions_type : Option String)
  | paid_results (phrase database : String)
      (display_limit display_offset : Option Int)
      (export_escape export_decode : Option Int)
      (display_date export_columns : Option String)
  | phrase_questions (phrase database : String)
      (display_limit display_offset : Option Int)
      (export_escape export_decode : Option Int)
      (export_columns display_sort display_filter : Option String)
  | pla_competitors (domain database : String)
      (display_limit display_offset : Option Int)
      (export_escape export_decode : Option Int)
      (export_columns display_sort : Option String)
  | pla_copies (domain database : String)
      (display_limit display_offset : Option Int)
      (export_escape export_decode : Option Int)
      (export_columns display_sort display_filter : Option String)
  | referring_domains (target target_type : String)
      (export_columns display_sort : Option String)
      (display_limit display_offset : Option Int) (display_filter : Option String)
  | referring_domains_by_country (target target_type : String)
      (export_columns display_sort : Option String)
      (display_limit display_offset : Option Int)
  | related_keywords (phrase database : String)
      (display_limit display_offset : Option Int)
      (export_escape export_decode : Option Int)
      (export_columns display_sort display_filter : Option String)

/-- Dispatch one invocation to its report method. -/
def dispatch (app : SemrushApp) : Call → SemrushApp × Except Err Request
  | .domain_ad_history d db dl doff dd ec ds df ee ed =>
      domain_ad_history app d db dl doff dd ec ds df ee ed
  | .domain_organic_pages d db dl doff dd ec ds df ee ed =>
      domain_organic_pages app d db dl doff dd ec ds df ee ed
  | .domain_organic_search_keywords d db dl doff dd dda ec ds dp dpt df ee =>
      domain_organic_search_keywords app d db dl doff dd dda ec ds dp dpt df ee
  | .domain_organic_subdomains d db dl doff dd ec ds ee ed =>
      domain_organic_subdomains app d db dl doff dd ec ds ee ed
  | .domain_paid_search_keywords d db dl doff dd ec ds dp df ee ed =>
      domain_paid_search_keywords app d db dl doff dd ec ds dp df ee ed
  | .domain_pla_search_keywords d db dl doff ec ds df ee ed =>
      domain_pla_search_keywords app d db dl doff ec ds df ee ed
  | .domain_vs_domain d db dl doff dd ec ds df ee ed =>
      domain_vs_domain app d db dl doff dd ec ds df ee ed
  | .backlinks t tt ec ds dl doff df => backlinks app t tt ec ds dl doff df
  | .backlinks_overview t tt ec ds dl doff df =>
      backlinks_overview app t tt ec ds dl doff df
  | .keyword_difficulty p db ec ee => keyword_difficulty app p db ec ee
  | .ads_copies d db dl doff ec ds df ee ed =>
      ads_copies app d db dl doff ec ds df ee ed
  | .anchors t tt ec ds dl doff => anchors app t tt ec ds dl doff
  | .authority_score_profile t tt => authority_score_profile app t tt
  | .batch_comparison ts tts ec => batch_comparison app ts tts ec
  | .batch_keyword_overview p db ee ed dd ec =>
      batch_keyword_overview app p db ee ed dd ec
  | .broad_match_keyword p db dl doff ee ed ec ds df =>
      broad_match_keyword app p db dl doff ee ed ec ds df
  | .categories t tt ec => categories app t tt ec
  | .categories_profile t tt ec dl doff => categories_profile app t tt ec dl doff
  | .competitors t tt ec dl doff => competitors app t tt ec dl doff
  | .competitors_organic_search d db dl doff ee ed dd ec ds =>
      competitors_organic_search app d db dl doff ee ed dd ec ds
  | .competitors_paid_search d db dl doff ee ed dd ec ds =>
      competitors_paid_search app d db dl doff ee ed dd ec ds
  | .indexed_pages t tt ec ds dl doff => indexed_pages app t tt ec ds dl doff
  | .keyword_ads_history p db dl doff ee ed ec =>
      keyword_ads_history app p db dl doff ee ed ec
  | .keyword_overview_all_databases p db ee ed ec =>
      keyword_overview_all_databases app p db ee ed ec
  | .keyword_overview_one_database p db ee ed dd ec =>
      keyword_overview_one_database app p db ee ed dd ec
  | .organic_results p db dl doff ee ed dd ec pt =>
      organic_results app p db dl doff ee ed dd ec pt
  | .paid_results p db dl doff ee ed dd ec =>
      paid_results app p db dl doff ee ed dd ec
  | .phrase_questions p db dl doff ee ed ec ds df =>
      phrase_questions app p db dl doff ee ed ec ds df
  | .pla_competitors d db dl doff ee ed ec ds =>
      pla_competitors app d db dl doff ee ed ec ds
  | .pla_copies d db dl doff ee ed ec ds df =>
      pla_copies app d db dl doff ee ed ec ds df
  | .referring_domains t tt ec ds dl doff df =>
      referring_domains app t tt ec ds dl doff df
  | .referring_domains_by_country t tt ec ds dl doff =>
      referring_domains_by_country app t tt ec ds dl doff
  | .related_keywords p db dl doff ee ed ec ds df =>
      related_keywords app p db dl doff ee ed ec ds df

/-- State left behind by one report invocation (the result aside). -/
def step (app : SemrushApp) (c : Call) : SemrushApp := (dispatch app c).1

/-- State after a sequence of report invocations within one process. -/
def run (app : SemrushApp) (calls : List Call) : SemrushApp := calls.foldl step app

/-- One HTTP response as the transport returns it: status, body, and
whether the content type indicates a self-describing structured format. -/
structure HttpResponse where
  status : Nat
  body : String
  isStructured : Bool
deriving DecidableEq, Repr

/-- Normalized result of a report call. -/
inductive ReportResult where
  | structured (data : String)
  | raw (text : String) (status : Nat)
deriving DecidableEq, Repr

/-- Classified error of a full report call. -/
inductive CallError where
  | valueError (msg : String)
  | remoteRequestFailed (status : Nat) (body : String)
deriving DecidableEq, Repr

/-- Modelled from the spec: `_handle_response` is inherited from the
`APIApplication` base class, whose source is not in this repository.
Per the spec, on a 2xx status it decodes the body as structured data
when the content type is self-describing and otherwise returns the raw
text with the status; on a non-success status it fails with
`RemoteRequestFailed(status, body)`. -/
def _handle_response (r : HttpResponse) : Except CallError ReportResult :=
  if 200 ≤ r.status ∧ r.status ≤ 299 then
    .ok (if r.isStructured then .structured r.body else .raw r.body r.status)
  else .error (.remoteRequestFailed r.status r.body)

/-- A full report call against a transport: dispatch builds and issues
the GET, then `_handle_response` normalizes whatever the transport
returned for that request. -/
def invoke (app : SemrushApp) (c : Call) (transport : Request → HttpResponse) :
    SemrushApp × Except CallError ReportResult :=
  match dispatch app c with
  | (app', .error (.valueError msg)) => (app', .error (.valueError msg))
  | (app', .ok req) => (app', _handle_response (transport req))

/-! Helper lemmas about the parameter dict and the credential cache. -/

lemma requestWithKey_fst {app : SemrushApp} {build : Option String → Request} :
    (requestWithKey app build).1 = (api_key app).1 := by
  unfold requestWithKey
  rcases h : api_key app with ⟨app', r⟩
  cases r <;> rfl

lemma requestWithKey_ok {app : SemrushApp} {build : Option String → Request}
    {req : Request} (h : (requestWithKey app build).2 = .ok req) :
    ∃ key, req = build key := by
  unfold requestWithKey at h
  rcases hak : api_key app with ⟨app', r⟩
  rw [hak] at h
  cases r with
  | error e => simp at h
  | ok key =>
    simp at h
    exact ⟨key, h.symm⟩

lemma requestWithKey_eq {app app' : SemrushApp} {key : Option String}
    (build : Option String → Request) (h : api_key app = (app', .ok key)) :
    requestWithKey app build = (app', .ok (build key)) := by
  unfold requestWithKey
  rw [h]

lemma api_key_truthy {app : SemrushApp} (h : truthyStr app._api_key = true) :
    api_key app = (app, .ok app._api_key) := by
  unfold api_key
  rw [h]
  simp

lemma api_key_nointeg {app : SemrushApp} (h1 : truthyStr app._api_key = false)
    (h2 : app.integration = none) :
    api_key app = (app, .error (.valueError "Integration not found")) := by
  unfold api_key _get_headers
  rw [h1, h2]
  simp

lemma api_key_resolved {app : SemrushApp} {creds : List (String × String)} {v : String}
    (h1 : truthyStr app._api_key = false) (h2 : app.integration = some creds)
    (h3 : lookupCred creds "api_key" = some v) :
    api_key app =
      ({ app with lookups := app.lookups + 1, _api_key := some v }, .ok (some v)) := by
  unfold api_key _get_headers
  rw [h1, h2]
  simp [h3]

lemma api_key_nofield {app : SemrushApp} {creds : List (String × String)}
    (h1 : truthyStr app._api_key = false) (h2 : app.integration = some creds)
    (h3 : lookupCred creds "api_key" = none) :
    api_key app = ({ app with lookups := app.lookups + 1 }, .ok app._api_key) := by
  unfold api_key _get_headers
  rw [h1, h2]
  simp [h3]

lemma hasKey_dictSet_ne {ps : Params} {k k' : String} {v : PVal} (h : k ≠ k') :
    hasKey (dictSet ps k' v) k = hasKey ps k := by
  induction ps with
  | nil => simp [dictSet, hasKey, Ne.symm h]
  | cons p ps ih =>
    by_cases hp : p.1 == k'
    · have : p.1 = k' := by simpa using hp
      simp [dictSet, hp, hasKey, this, Ne.symm h]
    · simp [dictSet, hp, hasKey, ih]

lemma hasKey_dictSet_of {ps : Params} {k k' : String} {v : PVal}
    (h : hasKey ps k = true) : hasKey (dictSet ps k' v) k = true := by
  induction ps with
  | nil => simp [hasKey] at h
  | cons p ps ih =>
    by_cases hp : p.1 == k'
    · have hp' : p.1 = k' := by simpa using hp
      simp only [hasKey, Bool.or_eq_true] at h
      rcases h with h | h
      · have hk : p.1 = k := by simpa using h
        have hkk : (k' == k) = true := by simp [← hp', hk]
        simp [dictSet, hp, hasKey, hkk]
      · simp [dictSet, hp, hasKey, h]
    · simp only [hasKey, Bool.or_eq_true] at h
      rcases h with h | h
      · simp [dictSet, hp, hasKey, h]
      · simp [dictSet, hp, hasKey, ih h]

lemma hasKey_addIfSome_ne {ps : Params} {k k' : String} {o : Option PVal}
    (h : k ≠ k') : hasKey (addIfSome ps k' o) k = hasKey ps k := by
  cases o with
  | none => rfl
  | some v => exact hasKey_dictSet_ne h

lemma hasKey_addIfSome_of {ps : Params} {k k' : String} {o : Option PVal}
    (h : hasKey ps k = true) : hasKey (addIfSome ps k' o) k = true := by
  cases o with
  | none => exact h
  | some v => exact hasKey_dictSet_of h

lemma hasKey_addOpts_of {ps : Params} {opts : List (String × Option PVal)}
    {k : String} (h : hasKey ps k = true) : hasKey (addOpts ps opts) k = true := by
  induction opts generalizing ps with
  | nil => exact h
  | cons q rest ih => exact ih (hasKey_addIfSome_of h)

lemma hasKey_addOpts_notmem {opts : List (String × Option PVal)} {k : String}
    (hk : ∀ r ∈ opts, r.1 ≠ k) :
    ∀ {ps : Params}, hasKey ps k = false → hasKey (addOpts ps opts) k = false := by
  induction opts with
  | nil => intro ps h; exact h
  | cons q rest ih =>
    intro ps h
    have hq : q.1 ≠ k := hk q (by simp)
    have hrest : ∀ r ∈ rest, r.1 ≠ k := fun r hr => hk r (by simp [hr])
    have : hasKey (addIfSome ps q.1 q.2) k = false := by
      rw [hasKey_addIfSome_ne (Ne.symm hq)]; exact h
    exact ih hrest this

/-- Main absence lemma for C4: an optional entry supplied as `none` never
contributes its wire key, as long as the wire keys of the optional block
are pairwise distinct and the key is absent from the base dict. -/
lemma hasKey_addOpts_unset {opts : List (String × Option PVal)}
    (hdist : opts.Pairwise (fun a b => a.1 ≠ b.1)) :
    ∀ {ps : Params} {p : String × Option PVal}, p ∈ opts → p.2 = none →
      hasKey ps p.1 = false → hasKey (addOpts ps opts) p.1 = false := by
  induction opts with
  | nil => intro ps p hp; simp at hp
  | cons q rest ih =>
    intro ps p hp hnone hbase
    rcases List.mem_cons.mp hp with rfl | hp'
    · have : addIfSome ps p.1 p.2 = ps := by rw [hnone]; rfl
      show hasKey (addOpts (addIfSome ps p.1 p.2) rest) p.1 = false
      rw [this]
      exact hasKey_addOpts_notmem
        (fun r hr => Ne.symm ((List.pairwise_cons.mp hdist).1 r hr)) hbase
    · have hq : q.1 ≠ p.1 := (List.pairwise_cons.mp hdist).1 p hp'
      have : hasKey (addIfSome ps q.1 q.2) p.1 = false := by
        rw [hasKey_addIfSome_ne hq.symm]; exact hbase
      exact ih (List.pairwise_cons.mp hdist).2 hp' hnone this

/-- Every report invocation either leaves the object unchanged (a
validation failure) or leaves exactly the state the `api_key` property
read produces. -/
lemma step_state (app : SemrushApp) (c : Call) :
    step app c = app ∨ step app c = (api_key app).1 := by
  rcases c <;>
    simp only [step, dispatch, domain_ad_history, domain_organic_pages,
      domain_organic_search_keywords, domain_organic_subdomains,
      domain_paid_search_keywords, domain_pla_search_keywords, domain_vs_domain,
      backlinks, backlinks_overview, keyword_difficulty, ads_copies, anchors,
      authority_score_profile, batch_comparison, batch_keyword_overview,
      broad_match_keyword, categories, categories_profile, competitors,
      competitors_organic_search, competitors_paid_search, indexed_pages,
      keyword_ads_history, keyword_overview_all_databases,
      keyword_overview_one_database, organic_results, paid_results,
      phrase_questions, pla_competitors, pla_copies, referring_domains,
      referring_domains_by_country, related_keywords] <;>
    (repeat' split) <;>
    first
      | (left; rfl)
      | (right; exact requestWithKey_fst)

/-- Potential of the credential cache: one further provider lookup is
still possible while the cached key is falsy. -/
def lookupBudget (app : SemrushApp) : Nat :=
  if truthyStr app._api_key then 0 else 1

lemma step_budget {creds : List (String × String)} {v : String}
    (hv : v ≠ "") (hl : lookupCred creds "api_key" = some v)
    (app : SemrushApp) (c : Call) (hint : app.integration = some creds) :
    (step app c).integration = some creds ∧
      (step app c).lookups + lookupBudget (step app c) ≤
        app.lookups + lookupBudget app := by
  rcases step_state app c with h | h
  · rw [h]; exact ⟨hint, le_refl _⟩
  · by_cases ht : truthyStr app._api_key
    · rw [h, (api_key_truthy ht : api_key app = _)]
      exact ⟨hint, le_refl _⟩
    · have ht' : truthyStr app._api_key = false := by simpa using ht
      rw [h, (api_key_resolved ht' hint hl : api_key app = _)]
      constructor
      · exact hint
      · have hnew : truthyStr (some v) = true := by simp [truthyStr, hv]
        simp [lookupBudget, hnew, ht']

lemma run_budget {creds : List (String × String)} {v : String}
    (hv : v ≠ "") (hl : lookupCred creds "api_key" = some v) :
    ∀ (calls : List Call) (app : SemrushApp), app.integration = some creds →
      (run app calls).integration = some creds ∧
        (run app calls).lookups + lookupBudget (run app calls) ≤
          app.lookups + lookupBudget app := by
  intro calls
  induction calls with
  | nil => intro app hint; exact ⟨hint, le_refl _⟩
  | cons c rest ih =>
    intro app hint
    have hstep := step_budget hv hl app c hint
    have hrest := ih (step app c) hstep.1
    exact ⟨hrest.1, le_trans hrest.2 hstep.2⟩

lemma pairwise_of_nodup_keys {opts : List (String × Option PVal)}
    (h : (opts.map Prod.fst).Nodup) : opts.Pairwise (fun a b => a.1 ≠ b.1) :=
  List.pairwise_map.mp h

lemma addOpts_unset_all {base : Params} {opts : List (String × Option PVal)}
    (hnd : (opts.map Prod.fst).Nodup)
    (hbase : ∀ q ∈ opts, hasKey base q.1 = false) :
    ∀ p ∈ opts, p.2 = none → hasKey (addOpts base opts) p.1 = false :=
  fun p hp hnone =>
    hasKey_addOpts_unset (pairwise_of_nodup_keys hnd) hp hnone (hbase p hp)

lemma hasKey_foldl_dictSet_of {l : List String} {k k' : String} :
    ∀ {ps : Params}, hasKey ps k = true →
      hasKey (l.foldl (fun ps t => dictSet ps k' (.str t)) ps) k = true := by
  induction l with
  | nil => intro ps h; exact h
  | cons t rest ih => intro ps h; exact ih (hasKey_dictSet_of h)

lemma hasKey_foldl_dictSet_ne {l : List String} {k k' : String} (h : k ≠ k') :
    ∀ {ps : Params},
      hasKey (l.foldl (fun ps t => dictSet ps k' (.str t)) ps) k = hasKey ps k := by
  induction l with
  | nil => intro ps; rfl
  | cons t rest ih => intro ps; rw [List.foldl_cons, ih, hasKey_dictSet_ne h]

lemma batch_opts_absent {ec : Option String} {key : Option String}
    {ts tts : List String} {p : String × Option PVal}
    (hp : p ∈ [("export_columns", optStr ec)]) (hnone : p.2 = none) :
    hasKey (addOpts
      (tts.foldl (fun ps t => dictSet ps "target_types[]" (.str t))
        (ts.foldl (fun ps t => dictSet ps "targets[]" (.str t))
          [("type", .str "backlinks_comparison"), ("key", .ofKey key)]))
      [("export_columns", optStr ec)]) p.1 = false := by
  have hp' : p = ("export_columns", optStr ec) := by simpa using hp
  subst hp'
  have hec : ec = none := by
    cases ec with
    | none => rfl
    | some v => simp [optStr] at hnone
  subst hec
  show hasKey (addOpts _ [("export_columns", none)]) "export_columns" = false
  simp only [addOpts, addIfSome]
  rw [hasKey_foldl_dictSet_ne (by decide), hasKey_foldl_dictSet_ne (by decide)]
  rfl

/-! Claim theorems. -/

/-- C5: the credential accessor returns a truthy cached credential
immediately with no provider call; when nothing usable is cached and no
integration is configured, it fails with
`ValueError("Integration not found")`; otherwise it performs exactly one
provider lookup, and either caches and returns the `api_key` field of
the result, or returns the previous (possibly still unresolved) value
without error. -/
theorem C5_credential_accessor (app : SemrushApp) :
    (truthyStr app._api_key = true → api_key app = (app, .ok app._api_key)) ∧
    (truthyStr app._api_key = false → app.integration = none →
      api_key app = (app, .error (.valueError "Integration not found"))) ∧
    (∀ creds v, truthyStr app._api_key = false → app.integration = some creds →
      lookupCred creds "api_key" = some v →
      api_key app =
        ({ app with lookups := app.lookups + 1, _api_key := some v }, .ok (some v))) ∧
    (∀ creds, truthyStr app._api_key = false → app.integration = some creds →
      lookupCred creds "api_key" = none →
      api_key app = ({ app with lookups := app.lookups + 1 }, .ok app._api_key)) :=
  ⟨api_key_truthy,
   fun h1 h2 => api_key_nointeg h1 h2,
   fun _ _ h1 h2 h3 => api_key_resolved h1 h2 h3,
   fun _ h1 h2 h3 => api_key_nofield h1 h2 h3⟩

/-- Witness for C5: a fresh object with a provider exposing
`api_key = "K"` resolves, caches and returns it in one lookup. -/
theorem C5_credential_accessor_witness :
    api_key { integration := some [("api_key", "K")], _api_key := none, lookups := 0 } =
      ({ integration := some [("api_key", "K")], _api_key := some "K", lookups := 1 },
       .ok (some "K")) :=
  (C5_credential_accessor _).2.2.1 [("api_key", "K")] "K" rfl rfl rfl

/-- C6: any report call whose GET drew a non-2xx response fails with
`RemoteRequestFailed` carrying that status and body; nothing else is
returned to the caller. -/
theorem C6_non2xx_fails_classified (app : SemrushApp) (c : Call)
    (transport : Request → HttpResponse) (req : Request)
    (hok : (dispatch app c).2 = .ok req)
    (hbad : ¬(200 ≤ (transport req).status ∧ (transport req).status ≤ 299)) :
    (invoke app c transport).2 =
      .error (.remoteRequestFailed (transport req).status (transport req).body) := by
  unfold invoke
  rcases hd : dispatch app c with ⟨app', r⟩
  rw [hd] at hok
  cases r with
  | error e => cases e with | valueError msg => simp at hok
  | ok req' =>
    have hreq : req' = req := by simpa using hok
    subst hreq
    simp [_handle_response, hbad]

/-- Witness for C6: a 403 response surfaces as
`RemoteRequestFailed(403, body)`. -/
theorem C6_non2xx_fails_classified_witness :
    (invoke { integration := some [("api_key", "K")], _api_key := some "K", lookups := 0 }
        (.keyword_difficulty "lean" "us" none none)
        (fun _ => { status := 403, body := "Forbidden", isStructured := false })).2 =
      .error (.remoteRequestFailed 403 "Forbidden") :=
  C6_non2xx_fails_classified _ _ _
    { url := base_url
      params := [("type", .str "phrase_kdi"), ("key", .str "K"),
                 ("phrase", .str "lean"), ("database", .str "us")] }
    rfl (by decide)

/-- C7: `domain_ad_history` with `domain = "example.com"`, the default
database and no optional arguments issues one GET to the base endpoint
whose parameter dict is exactly `type, key, domain, database` in that
order. -/
theorem C7_domain_ad_history_default_request (app : SemrushApp) (k : String)
    (hk : app._api_key = some k) (hne : k ≠ "") :
    domain_ad_history app "example.com" =
      (app, .ok { url := base_url
                  params := [("type", .str "domain_ad_history"), ("key", .str k),
                             ("domain", .str "example.com"), ("database", .str "us")] }) := by
  have ht : truthyStr app._api_key = true := by rw [hk]; simp [truthyStr, hne]
  have hak : api_key app = (app, .ok (some k)) := by rw [api_key_truthy ht, hk]
  unfold domain_ad_history
  rw [if_neg (by decide : ¬("example.com" = "")), requestWithKey_eq _ hak]
  rfl

/-- Witness for C7 at a resolved credential `"K"`. -/
theorem C7_domain_ad_history_default_request_witness :
    domain_ad_history
        { integration := some [("api_key", "K")], _api_key := some "K", lookups := 0 }
        "example.com" =
      ({ integration := some [("api_key", "K")], _api_key := some "K", lookups := 0 },
       .ok { url := base_url
             params := [("type", .str "domain_ad_history"), ("key", .str "K"),
                        ("domain", .str "example.com"), ("database", .str "us")] }) :=
  C7_domain_ad_history_default_request _ "K" rfl (by decide)

/-- C10: with an integration configured whose credential mapping lacks
`api_key`, a report call with valid arguments does not fail locally: the
parameter dict carries `key = None` and the GET is still issued. -/
theorem C10_unresolved_key_still_requests (app : SemrushApp)
    (creds : List (String × String)) (domain : String)
    (hint : app.integration = some creds)
    (hmiss : lookupCred creds "api_key" = none)
    (hkey : app._api_key = none) (hdom : domain ≠ "") :
    domain_ad_history app domain =
      ({ app with lookups := app.lookups + 1 },
       .ok { url := base_url
             params := [("type", .str "domain_ad_history"), ("key", .null),
                        ("domain", .str domain), ("database", .str "us")] }) := by
  have ht : truthyStr app._api_key = false := by rw [hkey]; rfl
  have hak : api_key app = ({ app with lookups := app.lookups + 1 }, .ok none) := by
    rw [api_key_nofield ht hint hmiss, hkey]
  unfold domain_ad_history
  rw [if_neg hdom, requestWithKey_eq _ hak]
  rfl

/-- Witness for C10: an empty credential mapping leaves the key as
`None`, yet the request is produced. -/
theorem C10_unresolved_key_still_requests_witness :
    domain_ad_history { integration := some [], _api_key := none, lookups := 0 }
        "example.com" =
      ({ integration := some [], _api_key := none, lookups := 1 },
       .ok { url := base_url
             params := [("type", .str "domain_ad_history"), ("key", .null),
                        ("domain", .str "example.com"), ("database", .str "us")] }) :=
  C10_unresolved_key_still_requests _ [] "example.com" rfl rfl rfl (by decide)

/-- C2 evidence: with two targets and two target types, the dict
assignments inside the loops of `batch_comparison` keep only the last
element of each list, so the wire keys `targets[]` and `target_types[]`
each carry a single value and the first elements never reach the
parameter set. -/
theorem C2_batch_comparison_keeps_last_only :
    (batch_comparison
        { integration := some [("api_key", "K")], _api_key := some "K", lookups := 0 }
        ["a.com", "b.com"] ["domain", "url"]).2 =
      .ok { url := base_url ++ "/analytics/v1"
            params := [("type", .str "backlinks_comparison"), ("key", .str "K"),
                       ("targets[]", .str "b.com"), ("target_types[]", .str "url")] } :=
  rfl

/-- C3 counterexample: when the provider's mapping lacks `api_key`, two
successive report calls in one process each trigger a provider lookup,
so the lookup count reaches 2 and "at most one resolution per process"
fails. -/
theorem C3_counterexample_two_lookups :
    (run { integration := some [], _api_key := none, lookups := 0 }
        [.domain_ad_history "example.com" "us" none none none none none none none none,
         .domain_ad_history "example.com" "us" none none none none none none none none]).lookups
      = 2 :=
  rfl

/-- C3 amended: starting from a fresh object whose provider mapping
contains a non-empty `api_key`, any sequence of report invocations
performs at most one provider lookup — the first resolution caches the
credential and every later call reuses it. -/
theorem C3_amended_resolve_once (creds : List (String × String)) (v : String)
    (calls : List Call) (hl : lookupCred creds "api_key" = some v) (hv : v ≠ "") :
    (run { integration := some creds, _api_key := none, lookups := 0 } calls).lookups ≤ 1 := by
  have h := (run_budget hv hl calls
    { integration := some creds, _api_key := none, lookups := 0 } rfl).2
  have h2 : (0 : Nat) +
      lookupBudget { integration := some creds, _api_key := none, lookups := 0 } = 1 := rfl
  have h0 : ({ integration := some creds, _api_key := none, lookups := 0 } : SemrushApp).lookups = 0 := rfl
  omega

/-- Witness for the amended C3: two different reports in sequence after
a successful resolution cost one lookup in total. -/
theorem C3_amended_resolve_once_witness :
    (run { integration := some [("api_key", "K")], _api_key := none, lookups := 0 }
        [.keyword_difficulty "lean" "us" none none,
         .backlinks "example.com" "domain" none none none none none]).lookups ≤ 1 :=
  C3_amended_resolve_once [("api_key", "K")] "K" _ rfl (by decide)

/-- C8: every backlinks-family report (`backlinks`, `backlinks_overview`,
`anchors`, `authority_score_profile`, `batch_comparison`, `categories`,
`categories_profile`, `competitors`, `indexed_pages`, `referring_domains`,
`referring_domains_by_country`) issues its GET to the secondary endpoint
`base_url ++ "/analytics/v1"`, whatever the supplied argument values. -/
theorem C8_backlinks_family_secondary_endpoint :
    (∀ app t tt ec ds dl doff df req,
      (backlinks app t tt ec ds dl doff df).2 = .ok req →
        req.url = base_url ++ "/analytics/v1") ∧
    (∀ app t tt ec ds dl doff df req,
      (backlinks_overview app t tt ec ds dl doff df).2 = .ok req →
        req.url = base_url ++ "/analytics/v1") ∧
    (∀ app t tt ec ds dl doff req,
      (anchors app t tt ec ds dl doff).2 = .ok req →
        req.url = base_url ++ "/analytics/v1") ∧
    (∀ app t tt req,
      (authority_score_profile app t tt).2 = .ok req →
        req.url = base_url ++ "/analytics/v1") ∧
    (∀ app ts tts ec req,
      (batch_comparison app ts tts ec).2 = .ok req →
        req.url = base_url ++ "/analytics/v1") ∧
    (∀ app t tt ec req,
      (categories app t tt ec).2 = .ok req →
        req.url = base_url ++ "/analytics/v1") ∧
    (∀ app t tt ec dl doff req,
      (categories_profile app t tt ec dl doff).2 = .ok req →
        req.url = base_url ++ "/analytics/v1") ∧
    (∀ app t tt ec dl doff req,
      (competitors app t tt ec dl doff).2 = .ok req →
        req.url = base_url ++ "/analytics/v1") ∧
    (∀ app t tt ec ds dl doff req,
      (indexed_pages app t tt ec ds dl doff).2 = .ok req →
        req.url = base_url ++ "/analytics/v1") ∧
    (∀ app t tt ec ds dl doff df req,
      (referring_domains app t tt ec ds dl doff df).2 = .ok req →
        req.url = base_url ++ "/analytics/v1") ∧
    (∀ app t tt ec ds dl doff req,
      (referring_domains_by_country app t tt ec ds dl doff).2 = .ok req →
        req.url = base_url ++ "/analytics/v1") := by
  refine ⟨?_, ?_, ?_, ?_, ?_, ?_, ?_, ?_, ?_, ?_, ?_⟩
  · intro app t tt ec ds dl doff df req h
    unfold backlinks at h
    split at h
    · simp at h
    split at h
    · simp at h
    obtain ⟨key, rfl⟩ := requestWithKey_ok h
    rfl
  · intro app t tt ec ds dl doff df req h
    unfold backlinks_overview at h
    split at h
    · simp at h
    split at h
    · simp at h
    obtain ⟨key, rfl⟩ := requestWithKey_ok h
    rfl
  · intro app t tt ec ds dl doff req h
    unfold anchors at h
    split at h
    · simp at h
    split at h
    · simp at h
    obtain ⟨key, rfl⟩ := requestWithKey_ok h
    rfl
  · intro app t tt req h
    unfold authority_score_profile at h
    split at h
    · simp at h
    split at h
    · simp at h
    obtain ⟨key, rfl⟩ := requestWithKey_ok h
    rfl
  · intro app ts tts ec req h
    unfold batch_comparison at h
    split at h
    · simp at h
    split at h
    · simp at h
    split at h
    · simp at h
    split at h
    · simp at h
    obtain ⟨key, rfl⟩ := requestWithKey_ok h
    rfl
  · intro app t tt ec req h
    unfold categories at h
    split at h
    · simp at h
    split at h
    · simp at h
    obtain ⟨key, rfl⟩ := requestWithKey_ok h
    rfl
  · intro app t tt ec dl doff req h
    unfold categories_profile at h
    split at h
    · simp at h
    split at h
    · simp at h
    obtain ⟨key, rfl⟩ := requestWithKey_ok h
    rfl
  · intro app t tt ec dl doff req h
    unfold competitors at h
    split at h
    · simp at h
    split at h
    · simp at h
    obtain ⟨key, rfl⟩ := requestWithKey_ok h
    rfl
  · intro app t tt ec ds dl doff req h
    unfold indexed_pages at h
    split at h
    · simp at h
    split at h
    · simp at h
    obtain ⟨key, rfl⟩ := requestWithKey_ok h
    rfl
  · intro app t tt ec ds dl doff df req h
    unfold referring_domains at h
    split at h
    · simp at h
    split at h
    · simp at h
    obtain ⟨key, rfl⟩ := requestWithKey_ok h
    rfl
  · intro app t tt ec ds dl doff req h
    unfold referring_domains_by_country at h
    split at h
    · simp at h
    split at h
    · simp at h
    obtain ⟨key, rfl⟩ := requestWithKey_ok h
    rfl

/-- Witness for C8: a concrete `backlinks` call routes to the secondary
endpoint. -/
theorem C8_backlinks_family_secondary_endpoint_witness :
    ({ url := base_url ++ "/analytics/v1"
       params := [("type", PVal.str "backlinks"), ("key", PVal.str "K"),
                  ("target", PVal.str "example.com"),
                  ("target_type", PVal.str "domain")] } : Request).url =
      base_url ++ "/analytics/v1" :=
  C8_backlinks_family_secondary_endpoint.1
    { integration := some [("api_key", "K")], _api_key := some "K", lookups := 0 }
    "example.com" "domain" none none none none none _ rfl

/-- C9: header construction always yields an empty header mapping, and
every issued report request carries the credential as the `key` entry of
its query parameters instead. -/
theorem C9_empty_headers_key_in_query :
    (∀ (app app' : SemrushApp) (hdrs : List (String × String)),
        _get_headers app = (app', .ok hdrs) → hdrs = []) ∧
    (∀ (app : SemrushApp) (c : Call) (req : Request),
        (dispatch app c).2 = .ok req → hasKey req.params "key" = true) := by
  constructor
  · intro app app' hdrs h
    unfold _get_headers at h
    split at h
    · simp at h
    · split at h <;> simp at h <;> exact h.2
  · intro app c req h
    rcases c <;>
      simp only [dispatch, domain_ad_history, domain_organic_pages,
        domain_organic_search_keywords, domain_organic_subdomains,
        domain_paid_search_keywords, domain_pla_search_keywords, domain_vs_domain,
        backlinks, backlinks_overview, keyword_difficulty, ads_copies, anchors,
        authority_score_profile, batch_comparison, batch_keyword_overview,
        broad_match_keyword, categories, categories_profile, competitors,
        competitors_organic_search, competitors_paid_search, indexed_pages,
        keyword_ads_history, keyword_overview_all_databases,
        keyword_overview_one_database, organic_results, paid_results,
        phrase_questions, pla_competitors, pla_copies, referring_domains,
        referring_domains_by_country, related_keywords] at h <;>
      (repeat' split at h) <;>
      first
        | (obtain ⟨key, rfl⟩ := requestWithKey_ok h
           first
             | exact hasKey_addOpts_of (by simp [hasKey])
             | exact hasKey_addOpts_of
                 (hasKey_foldl_dictSet_of (hasKey_foldl_dictSet_of (by simp [hasKey])))
             | simp [hasKey])
        | simp at h

/-- Witness for C9: a concrete successful `_get_headers` call returns the
empty header mapping. -/
theorem C9_empty_headers_key_in_query_witness :
    ([] : List (String × String)) = [] :=
  C9_empty_headers_key_in_query.1
    { integration := some [("api_key", "K")], _api_key := none, lookups := 0 }
    { integration := some [("api_key", "K")], _api_key := some "K", lookups := 1 }
    [] rfl

/-- C1: for every report method, an empty required argument (and, for
`batch_comparison`, an over-long or mismatched pair of lists) makes the
call return the corresponding `ValueError` with the object state
untouched — so the validation failure happens strictly before any
credential resolution and before any GET is produced. -/
theorem C1_validation_precedes_io :
    (∀ (app : SemrushApp) tts ec,
      batch_comparison app [] tts ec =
        (app, .error (.valueError "Targets parameter is required"))) ∧
    (∀ (app : SemrushApp) ts ec, ts ≠ [] →
      batch_comparison app ts [] ec =
        (app, .error (.valueError "Target_types parameter is required"))) ∧
    (∀ (app : SemrushApp) ts tts ec, ts ≠ [] → tts ≠ [] → ts.length > 200 →
      batch_comparison app ts tts ec =
        (app, .error (.valueError "Maximum 200 targets allowed"))) ∧
    (∀ (app : SemrushApp) ts tts ec, ts ≠ [] → tts ≠ [] → ¬ts.length > 200 →
      ts.length ≠ tts.length →
      batch_comparison app ts tts ec =
        (app, .error (.valueError "Targets and target_types arrays must have the same length"))) ∧
    (∀ (app : SemrushApp) db dl doff dd ec ds df ee ed,
      domain_ad_history app "" db dl doff dd ec ds df ee ed =
        (app, .error (.valueError "Domain parameter is required"))) ∧
    (∀ (app : SemrushApp) db dl doff dd ec ds df ee ed,
      domain_organic_pages app "" db dl doff dd ec ds df ee ed =
        (app, .error (.valueError "Domain parameter is required"))) ∧
    (∀ (app : SemrushApp) db dl doff dd dda ec ds dp dpt df ee,
      domain_organic_search_keywords app "" db dl doff dd dda ec ds dp dpt df ee =
        (app, .error (.valueError "Domain parameter is required"))) ∧
    (∀ (app : SemrushApp) db dl doff dd ec ds ee ed,
      domain_organic_subdomains app "" db dl doff dd ec ds ee ed =
        (app, .error (.valueError "Domain parameter is required"))) ∧
    (∀ (app : SemrushApp) db dl doff dd ec ds dp df ee ed,
      domain_paid_search_keywords app "" db dl doff dd ec ds dp df ee ed =
        (app, .error (.valueError "Domain parameter is required"))) ∧
    (∀ (app : SemrushApp) db dl doff ec ds df ee ed,
      domain_pla_search_keywords app "" db dl doff ec ds df ee ed =
        (app, .error (.valueError "Domain parameter is required"))) ∧
    (∀ (app : SemrushApp) db dl doff dd ec ds df ee ed,
      domain_vs_domain app "" db dl doff dd ec ds df ee ed =
        (app, .error (.valueError "Domains parameter is required"))) ∧
    (∀ (app : SemrushApp) db ec ee,
      keyword_difficulty app "" db ec ee =
        (app, .error (.valueError "Phrase parameter is required"))) ∧
    (∀ (app : SemrushApp) db dl doff ec ds df ee ed,
      ads_copies app "" db dl doff ec ds df ee ed =
        (app, .error (.valueError "Domain parameter is required"))) ∧
    (∀ (app : SemrushApp) db ee ed dd ec,
      batch_keyword_overview app "" db ee ed dd ec =
        (app, .error (.valueError "Phrase parameter is required"))) ∧
    (∀ (app : SemrushApp) db dl doff ee ed ec ds df,
      broad_match_keyword app "" db dl doff ee ed ec ds df =
        (app, .error (.valueError "Phrase parameter is required"))) ∧
    (∀ (app : SemrushApp) db dl doff ee ed dd ec ds,
      competitors_organic_search app "" db dl doff ee ed dd ec ds =
        (app, .error (.valueError "Domain parameter is required"))) ∧
    (∀ (app : SemrushApp) db dl doff ee ed dd ec ds,
      competitors_paid_search app "" db dl doff ee ed dd ec ds =
        (app, .error (.valueError "Domain parameter is required"))) ∧
    (∀ (app : SemrushApp) db dl doff ee ed ec,
      keyword_ads_history app "" db dl doff ee ed ec =
        (app, .error (.valueError "Phrase parameter is required"))) ∧
    (∀ (app : SemrushApp) db ee ed ec,
      keyword_overview_all_databases app "" db ee ed ec =
        (app, .error (.valueError "Phrase parameter is required"))) ∧
    (∀ (app : SemrushApp) db ee ed dd ec,
      keyword_overview_one_database app "" db ee ed dd ec =
        (app, .error (.valueError "Phrase parameter is required"))) ∧
    (∀ (app : SemrushApp) db dl doff ee ed dd ec pt,
      organic_results app "" db dl doff ee ed dd ec pt =
        (app, .error (.valueError "Phrase parameter is required"))) ∧
    (∀ (app : SemrushApp) db dl doff ee ed dd ec,
      paid_results app "" db dl doff ee ed dd ec =
        (app, .error (.valueError "Phrase parameter is required"))) ∧
    (∀ (app : SemrushApp) db dl doff ee ed ec ds df,
      phrase_questions app "" db dl doff ee ed ec ds df =
        (app, .error (.valueError "Phrase parameter is required"))) ∧
    (∀ (app : SemrushApp) db dl doff ee ed ec ds,
      pla_competitors app "" db dl doff ee ed ec ds =
        (app, .error (.valueError "Domain parameter is required"))) ∧
    (∀ (app : SemrushApp) db dl doff ee ed ec ds df,
      pla_copies app "" db dl doff ee ed ec ds df =
        (app, .error (.valueError "Domain parameter is required"))) ∧
    (∀ (app : SemrushApp) db dl doff ee ed ec ds df,
      related_keywords app "" db dl doff ee ed ec ds df =
        (app, .error (.valueError "Phrase parameter is required"))) ∧
    (∀ (app : SemrushApp) tt ec ds dl doff df,
      backlinks app "" tt ec ds dl doff df =
        (app, .error (.valueError "Target parameter is required"))) ∧
    (∀ (app : SemrushApp) t ec ds dl doff df, t ≠ "" →
      backlinks app t "" ec ds dl doff df =
        (app, .error (.valueError "Target_type parameter is required"))) ∧
    (∀ (app : SemrushApp) tt ec ds dl doff df,
      backlinks_overview app "" tt ec ds dl doff df =
        (app, .error (.valueError "Target parameter is required"))) ∧
    (∀ (app : SemrushApp) t ec ds dl doff df, t ≠ "" →
      backlinks_overview app t "" ec ds dl doff df =
        (app, .error (.valueError "Target_type parameter is required"))) ∧
    (∀ (app : SemrushApp) tt ec ds dl doff,
      anchors app "" tt ec ds dl doff =
        (app, .error (.valueError "Target parameter is required"))) ∧
    (∀ (app : SemrushApp) t ec ds dl doff, t ≠ "" →
      anchors app t "" ec ds dl doff =
        (app, .error (.valueError "Target_type parameter is required"))) ∧
    (∀ (app : SemrushApp) tt,
      authority_score_profile app "" tt =
        (app, .error (.valueError "Target parameter is required"))) ∧
    (∀ (app : SemrushApp) t, t ≠ "" →
      authority_score_profile app t "" =
        (app, .error (.valueError "Target_type parameter is required"))) ∧
    (∀ (app : SemrushApp) tt ec,
      categories app "" tt ec =
        (app, .error (.valueError "Target parameter is required"))) ∧
    (∀ (app : SemrushApp) t ec, t ≠ "" →
      categories app t "" ec =
        (app, .error (.valueError "Target_type parameter is required"))) ∧
    (∀ (app : SemrushApp) tt ec dl doff,
      categories_profile app "" tt ec dl doff =
        (app, .error (.valueError "Target parameter is required"))) ∧
    (∀ (app : SemrushApp) t ec dl doff, t ≠ "" →
      categories_profile app t "" ec dl doff =
        (app, .error (.valueError "Target_type parameter is required"))) ∧
    (∀ (app : SemrushApp) tt ec dl doff,
      competitors app "" tt ec dl doff =
        (app, .error (.valueError "Target parameter is required"))) ∧
    (∀ (app : SemrushApp) t ec dl doff, t ≠ "" →
      competitors app t "" ec dl doff =
        (app, .error (.valueError "Target_type parameter is required"))) ∧
    (∀ (app : SemrushApp) tt ec ds dl doff,
      indexed_pages app "" tt ec ds dl doff =
        (app, .error (.valueError "Target parameter is required"))) ∧
    (∀ (app : SemrushApp) t ec ds dl doff, t ≠ "" →
      indexed_pages app t "" ec ds dl doff =
        (app, .error (.valueError "Target_type parameter is required"))) ∧
    (∀ (app : SemrushApp) tt ec ds dl doff df,
      referring_domains app "" tt ec ds dl doff df =
        (app, .error (.valueError "Target parameter is required"))) ∧
    (∀ (app : SemrushApp) t ec ds dl doff df, t ≠ "" →
      referring_domains app t "" ec ds dl doff df =
        (app, .error (.valueError "Target_type parameter is required"))) ∧
    (∀ (app : SemrushApp) tt ec ds dl doff,
      referring_domains_by_country app "" tt ec ds dl doff =
        (app, .error (.valueError "Target parameter is required"))) ∧
    (∀ (app : SemrushApp) t ec ds dl doff, t ≠ "" →
      referring_domains_by_country app t "" ec ds dl doff =
        (app, .error (.valueError "Target_type parameter is required"))) := by
  refine ⟨?_, ?_, ?_, ?_, ?_, ?_, ?_, ?_, ?_, ?_, ?_, ?_, ?_, ?_, ?_, ?_, ?_, ?_,
    ?_, ?_, ?_, ?_, ?_, ?_, ?_, ?_, ?_, ?_, ?_, ?_, ?_, ?_, ?_, ?_, ?_, ?_, ?_,
    ?_, ?_, ?_, ?_, ?_, ?_, ?_, ?_, ?_⟩ <;>
  first
    | (intros; rfl)
    | (intros; rename_i h1 h2 h3 h4; simp [batch_comparison, h1, h2, h3, h4]; done)
    | (intros; rename_i h1 h2 h3; simp [batch_comparison, h1, h2, h3]; done)
    | (intros; rename_i h; simp [batch_comparison, backlinks, backlinks_overview,
        anchors, authority_score_profile, categories, categories_profile,
        competitors, indexed_pages, referring_domains,
        referring_domains_by_country, h]; done)

set_option maxRecDepth 8000 in
/-- Witness for C1: 201 targets trip the maximum-length validation with
the object state unchanged. -/
theorem C1_validation_precedes_io_witness :
    batch_comparison { integration := some [], _api_key := none, lookups := 0 }
        (List.replicate 201 "a") ["d"] none =
      ({ integration := some [], _api_key := none, lookups := 0 },
       .error (.valueError "Maximum 200 targets allowed")) :=
  C1_validation_precedes_io.2.2.1 _ _ _ none (by decide) (by decide) (by decide)

/-- C4: for every report method, an optional argument left as `None`
contributes no entry under its wire key to the assembled parameter dict
(`authority_score_profile` has no optional arguments, so there is
nothing to state for it). -/
theorem C4_absent_in_absent_out :
    (∀ (app : SemrushApp) domain database dl doff dd ec ds df ee ed req,
      (domain_ad_history app domain database dl doff dd ec ds df ee ed).2 = .ok req →
      ∀ p ∈ ([("display_limit", optInt dl), ("display_offset", optInt doff),
              ("display_date", optStr dd), ("export_columns", optStr ec),
              ("display_sort", optStr ds), ("display_filter", optStr df),
              ("export_escape", optInt ee), ("export_decode", optInt ed)] :
              List (String × Option PVal)),
        p.2 = none → hasKey req.params p.1 = false) ∧
    (∀ (app : SemrushApp) domain database dl doff dd ec ds df ee ed req,
      (domain_organic_pages app domain database dl doff dd ec ds df ee ed).2 = .ok req →
      ∀ p ∈ ([("display_limit", optInt dl), ("display_offset", optInt doff),
              ("display_date", optStr dd), ("export_columns", optStr ec),
              ("display_sort", optStr ds), ("display_filter", optStr df),
              ("export_escape", optInt ee), ("export_decode", optInt ed)] :
              List (String × Option PVal)),
        p.2 = none → hasKey req.params p.1 = false) ∧
    (∀ (app : SemrushApp) domain database dl doff dd dda ec ds dp dpt df ee req,
      (domain_organic_search_keywords app domain database dl doff dd dda ec ds dp dpt df ee).2
          = .ok req →
      ∀ p ∈ ([("display_limit", optInt dl), ("display_offset", optInt doff),
              ("display_date", optStr dd), ("display_daily", optInt dda),
              ("export_columns", optStr ec), ("display_sort", optStr ds),
              ("display_positions", optStr dp),
              ("display_positions_type", optStr dpt),
              ("display_filter", optStr df), ("export_escape", optInt ee)] :
              List (String × Option PVal)),
        p.2 = none → hasKey req.params p.1 = false) ∧
    (∀ (app : SemrushApp) domain database dl doff dd ec ds ee ed req,
      (domain_organic_subdomains app domain database dl doff dd ec ds ee ed).2 = .ok req →
      ∀ p ∈ ([("display_limit", optInt dl), ("display_offset", optInt doff),
              ("display_date", optStr dd), ("export_columns", optStr ec),
              ("display_sort", optStr ds),
              ("export_escape", optInt ee), ("export_decode", optInt ed)] :
              List (String × Option PVal)),
        p.2 = none → hasKey req.params p.1 = false) ∧
    (∀ (app : SemrushApp) domain database dl doff dd ec ds dp df ee ed req,
      (domain_paid_search_keywords app domain database dl doff dd ec ds dp df ee ed).2
          = .ok req →
      ∀ p ∈ ([("display_limit", optInt dl), ("display_offset", optInt doff),
              ("display_date", optStr dd), ("export_columns", optStr ec),
              ("display_sort", optStr ds), ("display_positions", optStr dp),
              ("display_filter", optStr df),
              ("export_escape", optInt ee), ("export_decode", optInt ed)] :
              List (String × Option PVal)),
        p.2 = none → hasKey req.params p.1 = false) ∧
    (∀ (app : SemrushApp) domain database dl doff ec ds df ee ed req,
      (domain_pla_search_keywords app domain database dl doff ec ds df ee ed).2 = .ok req →
      ∀ p ∈ ([("display_limit", optInt dl), ("display_offset", optInt doff),
              ("export_columns", optStr ec), ("display_sort", optStr ds),
              ("display_filter", optStr df),
              ("export_escape", optInt ee), ("export_decode", optInt ed)] :
              List (String × Option PVal)),
        p.2 = none → hasKey req.params p.1 = false) ∧
    (∀ (app : SemrushApp) domains database dl doff dd ec ds df ee ed req,
      (domain_vs_domain app domains database dl doff dd ec ds df ee ed).2 = .ok req →
      ∀ p ∈ ([("display_limit", optInt dl), ("display_offset", optInt doff),
              ("display_date", optStr dd), ("export_columns", optStr ec),
              ("display_sort", optStr ds), ("display_filter", optStr df),
              ("export_escape", optInt ee), ("export_decode", optInt ed)] :
              List (String × Option PVal)),
        p.2 = none → hasKey req.params p.1 = false) ∧
    (∀ (app : SemrushApp) t tt ec ds dl doff df req,
      (backlinks app t tt ec ds dl doff df).2 = .ok req →
      ∀ p ∈ ([("export_columns", optStr ec), ("display_sort", optStr ds),
              ("display_limit", optInt dl), ("display_offset", optInt doff),
              ("display_filter", optStr df)] :
              List (String × Option PVal)),
        p.2 = none → hasKey req.params p.1 = false) ∧
    (∀ (app : SemrushApp) t tt ec ds dl doff df req,
      (backlinks_overview app t tt ec ds dl doff df).2 = .ok req →
      ∀ p ∈ ([("export_columns", optStr ec), ("display_sort", optStr ds),
              ("display_limit", optInt dl), ("display_offset", optInt doff),
              ("display_filter", optStr df)] :
              List (String × Option PVal)),
        p.2 = none → hasKey req.params p.1 = false) ∧
    (∀ (app : SemrushApp) phrase database ec ee req,
      (keyword_difficulty app phrase database ec ee).2 = .ok req →
      ∀ p ∈ ([("export_columns", optStr ec), ("export_escape", optInt ee)] :
              List (String × Option PVal)),
        p.2 = none → hasKey req.params p.1 = false) ∧
    (∀ (app : SemrushApp) domain database dl doff ec ds df ee ed req,
      (ads_copies app domain database dl doff ec ds df ee ed).2 = .ok req →
      ∀ p ∈ ([("display_limit", optInt dl), ("display_offset", optInt doff),
              ("export_columns", optStr ec), ("display_sort", optStr ds),
              ("display_filter", optStr df),
              ("export_escape", optInt ee), ("export_decode", optInt ed)] :
              List (String × Option PVal)),
        p.2 = none → hasKey req.params p.1 = false) ∧
    (∀ (app : SemrushApp) t tt ec ds dl doff req,
      (anchors app t tt ec ds dl doff).2 = .ok req →
      ∀ p ∈ ([("export_columns", optStr ec), ("display_sort", optStr ds),
              ("display_limit", optInt dl), ("display_offset", optInt doff)] :
              List (String × Option PVal)),
        p.2 = none → hasKey req.params p.1 = false) ∧
    (∀ (app : SemrushApp) ts tts ec req,
      (batch_comparison app ts tts ec).2 = .ok req →
      ∀ p ∈ ([("export_columns", optStr ec)] : List (String × Option PVal)),
        p.2 = none → hasKey req.params p.1 = false) ∧
    (∀ (app : SemrushApp) phrase database ee ed dd ec req,
      (batch_keyword_overview app phrase database ee ed dd ec).2 = .ok req →
      ∀ p ∈ ([("export_escape", optInt ee), ("export_decode", optInt ed),
              ("display_date", optStr dd), ("export_columns", optStr ec)] :
              List (String × Option PVal)),
        p.2 = none → hasKey req.params p.1 = false) ∧
    (∀ (app : SemrushApp) phrase database dl doff ee ed ec ds df req,
      (broad_match_keyword app phrase database dl doff ee ed ec ds df).2 = .ok req →
      ∀ p ∈ ([("display_limit", optInt dl), ("display_offset", optInt doff),
              ("export_escape", optInt ee), ("export_decode", optInt ed),
              ("export_columns", optStr ec), ("display_sort", optStr ds),
              ("display_filter", optStr df)] :
              List (String × Option PVal)),
        p.2 = none → hasKey req.params p.1 = false) ∧
    (∀ (app : SemrushApp) t tt ec req,
      (categories app t tt ec).2 = .ok req →
      ∀ p ∈ ([("export_columns", optStr ec)] : List (String × Option PVal)),
        p.2 = none → hasKey req.params p.1 = false) ∧
    (∀ (app : SemrushApp) t tt ec dl doff req,
      (categories_profile app t tt ec dl doff).2 = .ok req →
      ∀ p ∈ ([("export_columns", optStr ec),
              ("display_limit", optInt dl), ("display_offset", optInt doff)] :
              List (String × Option PVal)),
        p.2 = none → hasKey req.params p.1 = false) ∧
    (∀ (app : SemrushApp) t tt ec dl doff req,
      (competitors app t tt ec dl doff).2 = .ok req →
      ∀ p ∈ ([("export_columns", optStr ec),
              ("display_limit", optInt dl), ("display_offset", optInt doff)] :
              List (String × Option PVal)),
        p.2 = none → hasKey req.params p.1 = false) ∧
    (∀ (app : SemrushApp) domain database dl doff ee ed dd ec ds req,
      (competitors_organic_search app domain database dl doff ee ed dd ec ds).2 = .ok req →
      ∀ p ∈ ([("display_limit", optInt dl), ("display_offset", optInt doff),
              ("export_escape", optInt ee), ("export_decode", optInt ed),
              ("display_date", optStr dd), ("export_columns", optStr ec),
              ("display_sort", optStr ds)] :
              List (String × Option PVal)),
        p.2 = none → hasKey req.params p.1 = false) ∧
    (∀ (app : SemrushApp) domain database dl doff ee ed dd ec ds req,
      (competitors_paid_search app domain database dl doff ee ed dd ec ds).2 = .ok req →
      ∀ p ∈ ([("display_limit", optInt dl), ("display_offset", optInt doff),
              ("export_escape", optInt ee), ("export_decode", optInt ed),
              ("display_date", optStr dd), ("export_columns", optStr ec),
              ("display_sort", optStr ds)] :
              List (String × Option PVal)),
        p.2 = none → hasKey req.params p.1 = false) ∧
    (∀ (app : SemrushApp) t tt ec ds dl doff req,
      (indexed_pages app t tt ec ds dl doff).2 = .ok req →
      ∀ p ∈ ([("export_columns", optStr ec), ("display_sort", optStr ds),
              ("display_limit", optInt dl), ("display_offset", optInt doff)] :
              List (String × Option PVal)),
        p.2 = none → hasKey req.params p.1 = false) ∧
    (∀ (app : SemrushApp) phrase database dl doff ee ed ec req,
      (keyword_ads_history app phrase database dl doff ee ed ec).2 = .ok req →
      ∀ p ∈ ([("display_limit", optInt dl), ("display_offset", optInt doff),
              ("export_escape", optInt ee), ("export_decode", optInt ed),
              ("export_columns", optStr ec)] :
              List (String × Option PVal)),
        p.2 = none → hasKey req.params p.1 = false) ∧
    (∀ (app : SemrushApp) phrase db ee ed ec req,
      (keyword_overview_all_databases app phrase db ee ed ec).2 = .ok req →
      ∀ p ∈ ([("database", optStr db),
              ("export_escape", optInt ee), ("export_decode", optInt ed),
              ("export_columns", optStr ec)] :
              List (String × Option PVal)),
        p.2 = none → hasKey req.params p.1 = false) ∧
    (∀ (app : SemrushApp) phrase database ee ed dd ec req,
      (keyword_overview_one_database app phrase database ee ed dd ec).2 = .ok req →
      ∀ p ∈ ([("export_escape", optInt ee), ("export_decode", optInt ed),
              ("display_date", optStr dd), ("export_columns", optStr ec)] :
              List (String × Option PVal)),
        p.2 = none → hasKey req.params p.1 = false) ∧
    (∀ (app : SemrushApp) phrase database dl doff ee ed dd ec pt req,
      (organic_results app phrase database dl doff ee ed dd ec pt).2 = .ok req →
      ∀ p ∈ ([("display_limit", optInt dl), ("display_offset", optInt doff),
              ("export_escape", optInt ee), ("export_decode", optInt ed),
              ("display_date", optStr dd), ("export_columns", optStr ec),
              ("positions_type", optStr pt)] :
              List (String × Option PVal)),
        p.2 = none → hasKey req.params p.1 = false) ∧
    (∀ (app : SemrushApp) phrase database dl doff ee ed dd ec req,
      (paid_results app phrase database dl doff ee ed dd ec).2 = .ok req →
      ∀ p ∈ ([("display_limit", optInt dl), ("display_offset", optInt doff),
              ("export_escape", optInt ee), ("export_decode", optInt ed),
              ("display_date", optStr dd), ("export_columns", optStr ec)] :
              List (String × Option PVal)),
        p.2 = none → hasKey req.params p.1 = false) ∧
    (∀ (app : SemrushApp) phrase database dl doff ee ed ec ds df req,
      (phrase_questions app phrase database dl doff ee ed ec ds df).2 = .ok req →
      ∀ p ∈ ([("display_limit", optInt dl), ("display_offset", optInt doff),
              ("export_escape", optInt ee), ("export_decode", optInt ed),
              ("export_columns", optStr ec), ("display_sort", optStr ds),
              ("display_filter", optStr df)] :
              List (String × Option PVal)),
        p.2 = none → hasKey req.params p.1 = false) ∧
    (∀ (app : SemrushApp) domain database dl doff ee ed ec ds req,
      (pla_competitors app domain database dl doff ee ed ec ds).2 = .ok req →
      ∀ p ∈ ([("display_limit", optInt dl), ("display_offset", optInt doff),
              ("export_escape", optInt ee), ("export_decode", optInt ed),
              ("export_columns", optStr ec), ("display_sort", optStr ds)] :
              List (String × Option PVal)),
        p.2 = none → hasKey req.params p.1 = false) ∧
    (∀ (app : SemrushApp) domain database dl doff ee ed ec ds df req,
      (pla_copies app domain database dl doff ee ed ec ds df).2 = .ok req →
      ∀ p ∈ ([("display_limit", optInt dl), ("display_offset", optInt doff),
              ("export_escape", optInt ee), ("export_decode", optInt ed),
              ("export_columns", optStr ec), ("display_sort", optStr ds),
              ("display_filter", optStr df)] :
              List (String × Option PVal)),
        p.2 = none → hasKey req.params p.1 = false) ∧
    (∀ (app : SemrushApp) t tt ec ds dl doff df req,
      (referring_domains app t tt ec ds dl doff df).2 = .ok req →
      ∀ p ∈ ([("export_columns", optStr ec), ("display_sort", optStr ds),
              ("display_limit", optInt dl), ("display_offset", optInt doff),
              ("display_filter", optStr df)] :
              List (String × Option PVal)),
        p.2 = none → hasKey req.params p.1 = false) ∧
    (∀ (app : SemrushApp) t tt ec ds dl doff req,
      (referring_domains_by_country app t tt ec ds dl doff).2 = .ok req →
      ∀ p ∈ ([("export_columns", optStr ec), ("display_sort", optStr ds),
              ("display_limit", optInt dl), ("display_offset", optInt doff)] :
              List (String × Option PVal)),
        p.2 = none → hasKey req.params p.1 = false) ∧
    (∀ (app : SemrushApp) phrase database dl doff ee ed ec ds df req,
      (related_keywords app phrase database dl doff ee ed ec ds df).2 = .ok req →
      ∀ p ∈ ([("display_limit", optInt dl), ("display_offset", optInt doff),
              ("export_escape", optInt ee), ("export_decode", optInt ed),
              ("export_columns", optStr ec), ("display_sort", optStr ds),
              ("display_filter", optStr df)] :
              List (String × Option PVal)),
        p.2 = none → hasKey req.params p.1 = false) := by
  refine ⟨?_, ?_, ?_, ?_, ?_, ?_, ?_, ?_, ?_, ?_, ?_, ?_, ?_, ?_, ?_, ?_, ?_,
    ?_, ?_, ?_, ?_, ?_, ?_, ?_, ?_, ?_, ?_, ?_, ?_, ?_, ?_, ?_⟩
  · intros; rename_i h p hp hnone
    simp only [domain_ad_history] at h
    split at h
    · simp at h
    obtain ⟨key, rfl⟩ := requestWithKey_ok h
    exact addOpts_unset_all (by simp) (by simp [hasKey]) p hp hnone
  · intros; rename_i h p hp hnone
    simp only [domain_organic_pages] at h
    split at h
    · simp at h
    obtain ⟨key, rfl⟩ := requestWithKey_ok h
    exact addOpts_unset_all (by simp) (by simp [hasKey]) p hp hnone
  · intros; rename_i h p hp hnone
    simp only [domain_organic_search_keywords] at h
    split at h
    · simp at h
    obtain ⟨key, rfl⟩ := requestWithKey_ok h
    exact addOpts_unset_all (by simp) (by simp [hasKey]) p hp hnone
  · intros; rename_i h p hp hnone
    simp only [domain_organic_subdomains] at h
    split at h
    · simp at h
    obtain ⟨key, rfl⟩ := requestWithKey_ok h
    exact addOpts_unset_all (by simp) (by simp [hasKey]) p hp hnone
  · intros; rename_i h p hp hnone
    simp only [domain_paid_search_keywords] at h
    split at h
    · simp at h
    obtain ⟨key, rfl⟩ := requestWithKey_ok h
    exact addOpts_unset_all (by simp) (by simp [hasKey]) p hp hnone
  · intros; rename_i h p hp hnone
    simp only [domain_pla_search_keywords] at h
    split at h
    · simp at h
    obtain ⟨key, rfl⟩ := requestWithKey_ok h
    exact addOpts_unset_all (by simp) (by simp [hasKey]) p hp hnone
  · intros; rename_i h p hp hnone
    simp only [domain_vs_domain] at h
    split at h
    · simp at h
    obtain ⟨key, rfl⟩ := requestWithKey_ok h
    exact addOpts_unset_all (by simp) (by simp [hasKey]) p hp hnone
  · intros; rename_i h p hp hnone
    simp only [backlinks] at h
    split at h
    · simp at h
    split at h
    · simp at h
    obtain ⟨key, rfl⟩ := requestWithKey_ok h
    exact addOpts_unset_all (by simp) (by simp [hasKey]) p hp hnone
  · intros; rename_i h p hp hnone
    simp only [backlinks_overview] at h
    split at h
    · simp at h
    split at h
    · simp at h
    obtain ⟨key, rfl⟩ := requestWithKey_ok h
    exact addOpts_unset_all (by simp) (by simp [hasKey]) p hp hnone
  · intros; rename_i h p hp hnone
    simp only [keyword_difficulty] at h
    split at h
    · simp at h
    obtain ⟨key, rfl⟩ := requestWithKey_ok h
    exact addOpts_unset_all (by simp) (by simp [hasKey]) p hp hnone
  · intros; rename_i h p hp hnone
    simp only [ads_copies] at h
    split at h
    · simp at h
    obtain ⟨key, rfl⟩ := requestWithKey_ok h
    exact addOpts_unset_all (by simp) (by simp [hasKey]) p hp hnone
  · intros; rename_i h p hp hnone
    simp only [anchors] at h
    split at h
    · simp at h
    split at h
    · simp at h
    obtain ⟨key, rfl⟩ := requestWithKey_ok h
    exact addOpts_unset_all (by simp) (by simp [hasKey]) p hp hnone
  · intros; rename_i h p hp hnone
    simp only [batch_comparison] at h
    split at h
    · simp at h
    split at h
    · simp at h
    split at h
    · simp at h
    split at h
    · simp at h
    obtain ⟨key, rfl⟩ := requestWithKey_ok h
    exact batch_opts_absent hp hnone
  · intros; rename_i h p hp hnone
    simp only [batch_keyword_overview] at h
    split at h
    · simp at h
    obtain ⟨key, rfl⟩ := requestWithKey_ok h
    exact addOpts_unset_all (by simp) (by simp [hasKey]) p hp hnone
  · intros; rename_i h p hp hnone
    simp only [broad_match_keyword] at h
    split at h
    · simp at h
    obtain ⟨key, rfl⟩ := requestWithKey_ok h
    exact addOpts_unset_all (by simp) (by simp [hasKey]) p hp hnone
  · intros; rename_i h p hp hnone
    simp only [categories] at h
    split at h
    · simp at h
    split at h
    · simp at h
    obtain ⟨key, rfl⟩ := requestWithKey_ok h
    exact addOpts_unset_all (by simp) (by simp [hasKey]) p hp hnone
  · intros; rename_i h p hp hnone
    simp only [categories_profile] at h
    split at h
    · simp at h
    split at h
    · simp at h
    obtain ⟨key, rfl⟩ := requestWithKey_ok h
    exact addOpts_unset_all (by simp) (by simp [hasKey]) p hp hnone
  · intros; rename_i h p hp hnone
    simp only [competitors] at h
    split at h
    · simp at h
    split at h
    · simp at h
    obtain ⟨key, rfl⟩ := requestWithKey_ok h
    exact addOpts_unset_all (by simp) (by simp [hasKey]) p hp hnone
  · intros; rename_i h p hp hnone
    simp only [competitors_organic_search] at h
    split at h
    · simp at h
    obtain ⟨key, rfl⟩ := requestWithKey_ok h
    exact addOpts_unset_all (by simp) (by simp [hasKey]) p hp hnone
  · intros; rename_i h p hp hnone
    simp only [competitors_paid_search] at h
    split at h
    · simp at h
    obtain ⟨key, rfl⟩ := requestWithKey_ok h
    exact addOpts_unset_all (by simp) (by simp [hasKey]) p hp hnone
  · intros; rename_i h p hp hnone
    simp only [indexed_pages] at h
    split at h
    · simp at h
    split at h
    · simp at h
    obtain ⟨key, rfl⟩ := requestWithKey_ok h
    exact addOpts_unset_all (by simp) (by simp [hasKey]) p hp hnone
  · intros; rename_i h p hp hnone
    simp only [keyword_ads_history] at h
    split at h
    · simp at h
    obtain ⟨key, rfl⟩ := requestWithKey_ok h
    exact addOpts_unset_all (by simp) (by simp [hasKey]) p hp hnone
  · intros; rename_i h p hp hnone
    simp only [keyword_overview_all_databases] at h
    split at h
    · simp at h
    obtain ⟨key, rfl⟩ := requestWithKey_ok h
    exact addOpts_unset_all (by simp) (by simp [hasKey]) p hp hnone
  · intros; rename_i h p hp hnone
    simp only [keyword_overview_one_database] at h
    split at h
    · simp at h
    obtain ⟨key, rfl⟩ := requestWithKey_ok h
    exact addOpts_unset_all (by simp) (by simp [hasKey]) p hp hnone
  · intros; rename_i h p hp hnone
    simp only [organic_results] at h
    split at h
    · simp at h
    obtain ⟨key, rfl⟩ := requestWithKey_ok h
    exact addOpts_unset_all (by simp) (by simp [hasKey]) p hp hnone
  · intros; rename_i h p hp hnone
    simp only [paid_results] at h
    split at h
    · simp at h
    obtain ⟨key, rfl⟩ := requestWithKey_ok h
    exact addOpts_unset_all (by simp) (by simp [hasKey]) p hp hnone
  · intros; rename_i h p hp hnone
    simp only [phrase_questions] at h
    split at h
    · simp at h
    obtain ⟨key, rfl⟩ := requestWithKey_ok h
    exact addOpts_unset_all (by simp) (by simp [hasKey]) p hp hnone
  · intros; rename_i h p hp hnone
    simp only [pla_competitors] at h
    split at h
    · simp at h
    obtain ⟨key, rfl⟩ := requestWithKey_ok h
    exact addOpts_unset_all (by simp) (by simp [hasKey]) p hp hnone
  · intros; rename_i h p hp hnone
    simp only [pla_copies] at h
    split at h
    · simp at h
    obtain ⟨key, rfl⟩ := requestWithKey_ok h
    exact addOpts_unset_all (by simp) (by simp [hasKey]) p hp hnone
  · intros; rename_i h p hp hnone
    simp only [referring_domains] at h
    split at h
    · simp at h
    split at h
    · simp at h
    obtain ⟨key, rfl⟩ := requestWithKey_ok h
    exact addOpts_unset_all (by simp) (by simp [hasKey]) p hp hnone
  · intros; rename_i h p hp hnone
    simp only [referring_domains_by_country] at h
    split at h
    · simp at h
    split at h
    · simp at h
    obtain ⟨key, rfl⟩ := requestWithKey_ok h
    exact addOpts_unset_all (by simp) (by simp [hasKey]) p hp hnone
  · intros; rename_i h p hp hnone
    simp only [related_keywords] at h
    split at h
    · simp at h
    obtain ⟨key, rfl⟩ := requestWithKey_ok h
    exact addOpts_unset_all (by simp) (by simp [hasKey]) p hp hnone

/-- Witness for C4: `domain_ad_history` with every optional argument
unset yields a parameter dict without the `display_limit` wire key. -/
theorem C4_absent_in_absent_out_witness :
    hasKey [("type", PVal.str "domain_ad_history"), ("key", PVal.str "K"),
            ("domain", PVal.str "example.com"), ("database", PVal.str "us")]
        "display_limit" = false :=
  C4_absent_in_absent_out.1
    { integration := some [("api_key", "K")], _api_key := some "K", lookups := 0 }
    "example.com" "us" none none none none none none none none _ rfl
    ("display_limit", optInt none) (by simp) rfl

end Semrush
